import Mathlib

/-!
Verification development for the wb-monitor-bot repository.

The definitions below are shallow embeddings of the Python sources:

* `src/bot/services/wb_client.py`  — tokenizer, matching engine, snapshot parsing
* `src/bot/services/worker.py`     — monitoring cycle, change detection, failure backoff
* `src/bot/services/repository.py` — due-track selection and event deduplication

Modelling conventions, used consistently:

* Python `Decimal` and `datetime` values are embedded as exact rationals `ℚ`;
  timestamps are rationals measured in minutes (so `timedelta(minutes=m)` is
  the rational `m` and `timedelta(hours=h)` is `60 * h`).
* Marketplace JSON payloads are embedded as the inductive `JVal`.  Python
  field accesses that can raise on malformed payloads are embedded in
  `Except PyErr`; accesses that the code guards with `isinstance` checks are
  embedded as total functions.
* The optional pymorphy3 morphological analyzer is embedded in its absent
  configuration (`MorphAnalyzer = None`): the module itself falls back to this
  configuration when the pymorphy3 import fails, so the `_MORPH is not None`
  branch of `_tokenize` is dead in the embedded configuration.
* Python `set`s of strings are embedded as duplicate-free lists (first
  occurrence kept); membership and cardinality agree with the set semantics.
-/

namespace WbMonitor

/-! ### Text primitives (wb_client.py, lines 25-64 and 273-284) -/

/-- Membership in Python `string.punctuation`, i.e. the ASCII ranges
`!`..`/`, `:`..`@`, `[`..`` ` ``, and `\x7b`..`~` (codepoints 33-47, 58-64,
91-96, 123-126).  `_tokenize` translates all of these to spaces. -/
def isPunctChar (c : Char) : Bool :=
  let n := c.toNat
  (33 ≤ n && n ≤ 47) || (58 ≤ n && n ≤ 64) || (91 ≤ n && n ≤ 96) ||
    (123 ≤ n && n ≤ 126)

/-- The character class of `_CYRILLIC_RE = re.compile(r"[а-яё]")`: lowercase
Cyrillic а-я (U+0430..U+044F) or ё (U+0451). -/
def isCyrillicChar (c : Char) : Bool :=
  let n := c.toNat
  (0x430 ≤ n && n ≤ 0x44F) || n = 0x451

/-- Python `str.lower()` restricted to the alphabets this codebase works with:
ASCII A-Z and Cyrillic А-Я / Ё.  All other characters are unchanged. -/
def lowerChar (c : Char) : Char :=
  let n := c.toNat
  if 65 ≤ n && n ≤ 90 then Char.ofNat (n + 32)
  else if 0x410 ≤ n && n ≤ 0x42F then Char.ofNat (n + 0x20)
  else if n = 0x401 then Char.ofNat 0x451
  else c

/-- `text.translate(str.maketrans(\x7bc: " " for c in punctuation\x7d)).lower()`
from `_tokenize` (wb_client.py line 274). -/
def normalizeText (text : String) : String :=
  String.mk ((text.data.map (fun c => if isPunctChar c then ' ' else c)).map lowerChar)

/-- Python `str.strip()` restricted to ASCII whitespace (the payload fields
in play contain no exotic whitespace). -/
def pyStrip (s : String) : String :=
  String.mk
    (((s.data.dropWhile Char.isWhitespace).reverse.dropWhile Char.isWhitespace).reverse)

/-- Python `str.startswith`. -/
def strStartsWith (s pre : String) : Bool :=
  pre.data.isPrefixOf s.data

/-- Python `sep.join(l)`. -/
def joinSep (sep : String) (l : List String) : String :=
  String.mk (List.intercalate sep.data (l.map String.data))

/-- Worker for `splitWs`: accumulate the current word (reversed) while
scanning. -/
def splitWsAux : List Char → List Char → List String
  | [], acc => if acc.isEmpty then [] else [String.mk acc.reverse]
  | c :: rest, acc =>
    if c.isWhitespace then
      if acc.isEmpty then splitWsAux rest []
      else String.mk acc.reverse :: splitWsAux rest []
    else splitWsAux rest (c :: acc)

/-- Python `str.split()` with no argument: split on runs of whitespace,
discarding empty pieces. -/
def splitWs (s : String) : List String :=
  splitWsAux s.data []

/-- `_STOP_WORDS` (wb_client.py lines 42-56). -/
def STOP_WORDS : List String :=
  ["для", "или", "без", "под", "это", "при", "как", "что", "она", "они",
   "the", "and", "with"]

/-- `_TOKEN_NORMALIZATION` (wb_client.py lines 124-158), in source order. -/
def TOKEN_NORMALIZATION : List (String × String) :=
  [("часы", "watch"), ("часов", "watch"), ("часами", "watch"), ("часам", "watch"),
   ("час", "watch"), ("смартчасы", "watch"), ("iwatch", "watch"),
   ("эпл", "apple"), ("апл", "apple"), ("айфон", "iphone"),
   ("сяоми", "xiaomi"), ("ксиоми", "xiaomi"), ("redmi", "xiaomi"),
   ("галакси", "galaxy"),
   ("кабель", "cable"), ("провод", "cable"), ("шнур", "cable"),
   ("зарядка", "charge"), ("зарядки", "charge"), ("зарядное", "charge"),
   ("зарядные", "charge"), ("зарядный", "charge"),
   ("блок", "power"), ("питание", "power"), ("питания", "power"),
   ("адаптер", "adapter"), ("аккумулятор", "battery"), ("станция", "station"),
   ("яндекс", "yandex"), ("charger", "charge"), ("charging", "charge"),
   ("remeshok", "strap"), ("ремешок", "strap")]

/-- Python `str.isdigit()` on the tokens in play: nonempty and all ASCII digits. -/
def pyIsDigit (s : String) : Bool :=
  !s.data.isEmpty && s.data.all Char.isDigit

/-- `_tokenize` (wb_client.py lines 273-284).  The pymorphy3 branch is absent
in the embedded configuration (see the module conventions above). -/
def tokenize (text : String) : List String :=
  (splitWs (normalizeText text)).filterMap (fun token =>
    let token := (List.lookup token TOKEN_NORMALIZATION).getD token
    if 3 ≤ token.length && !pyIsDigit token && !STOP_WORDS.contains token
    then some token else none)

/-! ### Gender detection (wb_client.py, lines 57-62 and 315-350) -/

/-- `_GENDER_MALE_WORDS`. -/
def GENDER_MALE_WORDS : List String := ["men", "male", "man", "boy", "boys"]

/-- `_GENDER_FEMALE_WORDS`. -/
def GENDER_FEMALE_WORDS : List String := ["women", "woman", "female", "girl", "girls"]

/-- `_GENDER_UNISEX_WORDS`. -/
def GENDER_UNISEX_WORDS : List String := ["unisex", "унисекс"]

/-- `_GENDER_TOKENS = _GENDER_MALE_WORDS | _GENDER_FEMALE_WORDS | _GENDER_UNISEX_WORDS`. -/
def GENDER_TOKENS : List String :=
  GENDER_MALE_WORDS ++ GENDER_FEMALE_WORDS ++ GENDER_UNISEX_WORDS

/-- `_is_male_token` (prefix tuple `("муж",)`). -/
def is_male_token (t : String) : Bool :=
  GENDER_MALE_WORDS.contains t || strStartsWith t "муж"

/-- `_is_female_token` (prefix tuple `("жен",)`). -/
def is_female_token (t : String) : Bool :=
  GENDER_FEMALE_WORDS.contains t || strStartsWith t "жен"

/-- `_detect_gender` (wb_client.py lines 327-339). -/
def detect_gender (text : String) : Option String :=
  let tokens := tokenize text
  let has_unisex := tokens.any (fun t => GENDER_UNISEX_WORDS.contains t)
  let has_male := tokens.any is_male_token
  let has_female := tokens.any is_female_token
  if has_unisex then none
  else if has_male && !has_female then some "male"
  else if has_female && !has_male then some "female"
  else none

/-- `_characteristic_tokens` (wb_client.py lines 342-350); returns a set,
embedded as the deduplicated kept-token list. -/
def characteristic_tokens (text : String) : List String :=
  ((tokenize text).filter (fun token =>
    !GENDER_TOKENS.contains token &&
    !is_male_token token && !is_female_token token)).eraseDups

/-! ### Anchor / ecosystem / type tokens (wb_client.py, lines 66-122, 353-390) -/

/-- `_GENERIC_PRODUCT_TOKENS` (wb_client.py lines 66-101). -/
def GENERIC_PRODUCT_TOKENS : List String :=
  ["кабель", "провод", "зарядка", "зарядное", "зарядный", "устройство",
   "устройства", "устройств", "адаптер", "телефон", "телефона", "телефонов",
   "смартфон", "смартфона", "часы", "часов", "смарт", "умный", "умных",
   "ремешок", "аксессуар", "аксессуары", "чехол", "кейс", "комплект", "набор",
   "зарядки", "usb", "type", "micro", "lightning", "charger", "cable", "charge"]

/-- `_is_latin_or_digit_token` (wb_client.py lines 353-356). -/
def is_latin_or_digit_token (t : String) : Bool :=
  t.data.any (fun c => 'a' ≤ c && c ≤ 'z') || t.data.any (fun c => c.isDigit)

/-- `_anchor_tokens` (wb_client.py lines 359-360). -/
def anchor_tokens (tokens : List String) : List String :=
  tokens.filter (fun t => !GENERIC_PRODUCT_TOKENS.contains t)

/-- `_required_anchor_matches` (wb_client.py lines 363-372). -/
def required_anchor_matches (anchors : List String) : Nat :=
  if anchors.isEmpty then 0
  else
    let strong := anchors.filter is_latin_or_digit_token
    if 2 ≤ strong.length then 2
    else if 4 ≤ anchors.length then 2
    else 1

/-- `_ECOSYSTEM_TOKENS` (wb_client.py lines 102-108), in dict insertion order
(the first matching entry wins in `_detect_ecosystem`). -/
def ECOSYSTEM_TOKENS : List (String × List String) :=
  [("apple", ["apple", "iphone", "iwatch", "airpods", "watchos", "ios"]),
   ("xiaomi", ["xiaomi", "redmi", "miband"]),
   ("samsung", ["samsung", "galaxy"]),
   ("huawei", ["huawei", "honor"]),
   ("yandex", ["yandex", "яндекс", "yndx", "alice", "алиса", "станция"])]

/-- `_detect_ecosystem` (wb_client.py lines 375-379). -/
def detect_ecosystem (tokens : List String) : Option String :=
  (ECOSYSTEM_TOKENS.find? (fun e => tokens.any (fun t => e.2.contains t))).map (fun e => e.1)

/-- `_is_ecosystem_compatible` (wb_client.py lines 382-390). -/
def is_ecosystem_compatible (base_ecosystem : Option String)
    (candidate_tokens : List String) : Bool :=
  match base_ecosystem with
  | none => true
  | some base =>
    match detect_ecosystem candidate_tokens with
    | none => true
    | some cand => cand = base

/-- `_TYPE_TOKENS` (wb_client.py lines 109-122). -/
def TYPE_TOKENS : List String :=
  ["cable", "charge", "adapter", "power", "supply", "battery", "station",
   "remeshok", "strap", "case", "cover", "glass"]

/-! ### Fuzzy token matching (wb_client.py, lines 435-487) -/

/-- `_is_cyrillic_token` (wb_client.py lines 435-436). -/
def is_cyrillic_token (t : String) : Bool :=
  t.data.any isCyrillicChar

/-- Python string slice `s[:n]`. -/
def strTake (s : String) (n : Nat) : String :=
  String.mk (s.data.take n)

/-- `_tokens_match` (wb_client.py lines 439-456). -/
def tokens_match (left right : String) : Bool :=
  if left = right then true
  else if is_cyrillic_token left || is_cyrillic_token right then
    6 ≤ left.length && 6 ≤ right.length && strTake left 6 = strTake right 6
  else
    4 ≤ left.length && 4 ≤ right.length && strTake left 4 = strTake right 4

/-- `_match_count` (wb_client.py lines 459-467): the number of base tokens
with at least one fuzzy match among the candidate tokens. -/
def match_count (base candidate : List String) : Nat :=
  if base.isEmpty || candidate.isEmpty then 0
  else (base.filter (fun t => candidate.any (fun c => tokens_match t c))).length

/-- `_match_percent` (wb_client.py lines 470-474).  Python computes
`int((matched / len(base)) * 100)` in binary floating point; the embedding
uses the exact value `matched * 100 / len(base)` rounded down.  The two can
differ by one on a few boundary ratios; none of the theorems below depends
on the exact percentage value. -/
def match_percent (base candidate : List String) : Int :=
  if base.isEmpty then 0
  else ((match_count base candidate * 100) / base.length : Nat)

/-- `_overlap_score` (wb_client.py lines 477-487): the number of left tokens
with at least one fuzzy match on the right (inner loop breaks at the first). -/
def overlap_score (left right : List String) : Nat :=
  if left.isEmpty || right.isEmpty then 0
  else (left.filter (fun l => right.any (fun r => tokens_match l r))).length

/-- `_MIN_CHARACTERISTICS_MATCH_PERCENT` (wb_client.py line 63). -/
def MIN_CHARACTERISTICS_MATCH_PERCENT : Int := 50

/-- `_normalize_match_percent` (wb_client.py lines 267-270). -/
def normalize_match_percent (value : Option Int) : Int :=
  match value with
  | none => MIN_CHARACTERISTICS_MATCH_PERCENT
  | some v => max 10 (min 95 v)

/-! ### Literal model tokens (wb_client.py, lines 123, 298-312)

`_MODEL_TOKEN_RE = re.compile(r"\b[a-z0-9]\x7b2,\x7d(?:-[a-z0-9]\x7b2,\x7d)+\b", re.IGNORECASE)`
and `_extract_model_tokens` lowercase every match.  The scanner below
reproduces `finditer` over that pattern: the text is cut into maximal runs of
regex word characters; a match is a maximal chain of at least two runs, each
a purely ASCII-alphanumeric run of length ≥ 2, joined by single hyphens. -/

/-- Regex word characters (`\w` with `re.UNICODE`) for the alphabets in play:
ASCII alphanumerics, underscore, and Cyrillic letters. -/
def isWordChar (c : Char) : Bool :=
  c.isAlphanum || c = '_' || (0x400 ≤ c.toNat && c.toNat ≤ 0x4FF)

/-- Group consecutive characters into maximal runs with the same
`isWordChar` classification (tag `true` = word run). -/
def chunkRuns : List Char → List (Bool × List Char)
  | [] => []
  | c :: rest =>
    match chunkRuns rest with
    | [] => [(isWordChar c, [c])]
    | (b, run) :: out =>
      if isWordChar c = b then (b, c :: run) :: out
      else (isWordChar c, [c]) :: (b, run) :: out

/-- A run usable inside a model token: `[a-z0-9]` (case-insensitive) with
length at least 2. -/
def validModelRun (run : List Char) : Bool :=
  2 ≤ run.length && run.all Char.isAlphanum

/-- Starting right after a valid word run, greedily take further
`-[a-z0-9]\x7b2,\x7d` groups: a single-hyphen separator run followed by a valid
word run.  Returns the collected runs and the unconsumed chunk list. -/
def takeModelChain : List (Bool × List Char) → List (List Char) × List (Bool × List Char)
  | (false, ['-']) :: (true, w) :: rest =>
    if validModelRun w then
      let (ws, rest') := takeModelChain rest
      (w :: ws, rest')
    else ([], (false, ['-']) :: (true, w) :: rest)
  | l => ([], l)

theorem takeModelChain_length_le :
    ∀ l : List (Bool × List Char), (takeModelChain l).2.length ≤ l.length := by
  intro l
  induction l using takeModelChain.induct with
  | case1 w rest h ws rest' heq ih =>
    simp only [takeModelChain, h, heq, if_pos]
    simp only [heq] at ih
    simp at ih ⊢
    omega
  | case2 w rest h =>
    simp [takeModelChain, h]
  | case3 l h =>
    rw [takeModelChain.eq_def]
    split
    · exact absurd rfl (fun hc => h _ _ hc)
    · exact Nat.le_refl _

/-- Render a chain of runs back to the matched text, lowercased
(`m.group(0).lower()`). -/
def chainText (runs : List (List Char)) : String :=
  String.mk (((runs.map (fun r => r.map lowerChar)).intersperse ['-']).flatten)

/-- Scan the chunk list for all model-token matches, left to right,
non-overlapping, in source order. -/
def scanModelTokens : List (Bool × List Char) → List String
  | [] => []
  | (false, _) :: rest => scanModelTokens rest
  | (true, w) :: rest =>
    if validModelRun w then
      match h : takeModelChain rest with
      | ([], _) => scanModelTokens rest
      | (ws, rest') => chainText (w :: ws) :: scanModelTokens rest'
    else scanModelTokens rest
termination_by l => l.length
decreasing_by
  all_goals first
    | (have hlen := takeModelChain_length_le rest
       rw [h] at hlen
       simp at hlen ⊢
       omega)
    | (simp; try omega)

/-- `_extract_model_tokens` (wb_client.py lines 298-299); returns a set,
embedded as the deduplicated match list. -/
def extract_model_tokens (text : String) : List String :=
  (scanModelTokens (chunkRuns text.data)).eraseDups

/-- `_model_tokens_compatible` (wb_client.py lines 302-312). -/
def model_tokens_compatible (base_model_tokens : List String)
    (candidate_text : String) (candidate_tokens : List String) : Bool :=
  if base_model_tokens.isEmpty then true
  else
    let candidate_model_tokens := extract_model_tokens candidate_text
    if base_model_tokens.any (fun t => candidate_model_tokens.contains t) then true
    else base_model_tokens.any (fun t => candidate_tokens.contains t)

/-! ### JSON payload model

Marketplace HTTP payloads are untrusted JSON.  `aiohttp`'s `resp.json()`
yields Python `None`/`bool`/`int`/`float`/`str`/`list`/`dict`; `JVal` mirrors
that.  `JVal.float` carries the decimal value of the float's shortest
round-trip representation, which is what `Decimal(str(x))` reads back. -/

inductive PyErr where
  /-- `TypeError` / `AttributeError` / `KeyError`: an operation applied to a
  value of the wrong shape. -/
  | typeErr
  /-- `ValueError`: `int()` applied to a non-numeric string. -/
  | valueErr
  /-- `decimal.InvalidOperation`: `Decimal()` applied to a non-numeric text
  such as `str(True)`. -/
  | invalidOperation
deriving DecidableEq, Repr

inductive JVal where
  | null
  | bool (b : Bool)
  | int (n : Int)
  | float (q : ℚ)
  | str (s : String)
  | arr (items : List JVal)
  | obj (fields : List (String × JVal))

/-- Python truthiness of a JSON value. -/
def JVal.truthy : JVal → Bool
  | .null => false
  | .bool b => b
  | .int n => n != 0
  | .float q => q != 0
  | .str s => s != ""
  | .arr l => !l.isEmpty
  | .obj l => !l.isEmpty

/-- `d.get(k)` on a value already isinstance-checked to be a dict: Python
`None` when the key is absent.  (Non-dict receivers yield `null` here; every
use site below is isinstance-guarded in the source, so that case never
arises.  The unguarded `.get` calls of `_fetch_and_cache` are embedded
separately with `Except` semantics.) -/
def JVal.dGet : JVal → String → JVal
  | .obj fields, k => (List.lookup k fields).getD .null
  | _, _ => .null

/-- `d.get(k, default)` on a dict. -/
def JVal.dGetD : JVal → String → JVal → JVal
  | .obj fields, k, dflt => (List.lookup k fields).getD dflt
  | _, _, dflt => dflt

/-- `isinstance(x, dict)`. -/
def JVal.isDict : JVal → Bool
  | .obj _ => true
  | _ => false

/-- `isinstance(x, list)`. -/
def JVal.isList : JVal → Bool
  | .arr _ => true
  | _ => false

/-- `isinstance(x, str)`. -/
def JVal.isStr : JVal → Bool
  | .str _ => true
  | _ => false

/-- `isinstance(x, (int, float))`.  Python `bool` is a subclass of `int`, so
`True` and `False` pass this check. -/
def JVal.isNumeric : JVal → Bool
  | .int _ => true
  | .float _ => true
  | .bool _ => true
  | _ => false

/-- Python `a or b`. -/
def pyOr (a b : JVal) : JVal :=
  if a.truthy then a else b

/-- Python `str()` of a payload value as rendered into titles.  The exact
`repr` text of nested lists/dicts is not reproduced; no theorem depends on
that text. -/
def JVal.pyStr : JVal → String
  | .null => "None"
  | .bool true => "True"
  | .bool false => "False"
  | .int n => toString n
  | .float q => toString q
  | .str s => s
  | .arr _ => "[...]"
  | .obj _ => "dict"

/-- Numeric value of an all-ASCII-digit character list. -/
def digitsToNat (l : List Char) : Nat :=
  l.foldl (fun acc c => acc * 10 + (c.toNat - 48)) 0

/-- Python `int(string)` on an already-stripped string: optional sign
followed by ASCII digits.  (The underscore-separator and non-ASCII digit
forms Python also accepts do not occur in marketplace payloads.) -/
def strToInt? (s : String) : Option Int :=
  let (sign, digits) :=
    match s.data with
    | '-' :: rest => ((-1 : Int), rest)
    | '+' :: rest => ((1 : Int), rest)
    | l => ((1 : Int), l)
  if !digits.isEmpty && digits.all Char.isDigit then
    some (sign * (digitsToNat digits : Int))
  else none

/-- `_parse_int` (wb_client.py lines 490-503): `bool` is rejected first,
plain `int` accepted, strings stripped and parsed (parse failure gives
`None`), everything else (including floats) gives `None`. -/
def parse_int : JVal → Option Int
  | .bool _ => none
  | .int n => some n
  | .str raw =>
    let value := pyStrip raw
    if value = "" then none else strToInt? value
  | _ => none

/-- `Decimal(str(x))` for a value that passed `isinstance(x, (int, float))`.
For a Python `bool`, `str(True)` is `"True"`, which `Decimal` rejects by
raising `decimal.InvalidOperation`. -/
def decimalOfNumeric : JVal → Except PyErr ℚ
  | .int n => .ok (n : ℚ)
  | .float q => .ok q
  | _ => .error .invalidOperation

/-- `_extract_price` (wb_client.py lines 219-237).  Can raise: a `bool`
`salePriceU` (or `sizes[0].price.product`) passes the numeric isinstance
check and then blows up `Decimal(str(...))`. -/
def extract_price (product : JVal) : Except PyErr (Option ℚ) :=
  let sale_price := product.dGet "salePriceU"
  let sizes_data := product.dGet "sizes"
  let sale_price :=
    match sizes_data, sale_price.isNumeric with
    | .arr (first_size :: _), false =>
      if first_size.isDict then
        let price_data := first_size.dGet "price"
        if price_data.isDict then
          let first_price := price_data.dGet "product"
          if first_price.isNumeric then first_price else .null
        else sale_price
      else sale_price
    | _, _ => sale_price
  if sale_price.isNumeric then
    match decimalOfNumeric sale_price with
    | .ok q => .ok (some (q / 100))
    | .error e => .error e
  else .ok none

/-- `_extract_rating` (wb_client.py lines 240-248); same `bool` caveat as
`extract_price`. -/
def extract_rating (product : JVal) : Except PyErr (Option ℚ) :=
  let raw := product.dGet "nmReviewRating"
  let raw := if !raw.isNumeric then product.dGet "reviewRating" else raw
  let raw := if !raw.isNumeric then product.dGet "rating" else raw
  if raw.isNumeric then
    match decimalOfNumeric raw with
    | .ok q => .ok (some q)
    | .error e => .error e
  else .ok none

/-- `_extract_reviews` (wb_client.py lines 251-264). -/
def extract_reviews (product : JVal) : Option Int :=
  match parse_int (product.dGet "nmFeedbacks") with
  | some v => some (max 0 v)
  | none =>
    match parse_int (product.dGet "feedbacks") with
    | some v => some (max 0 v)
    | none =>
      match parse_int (product.dGet "feedbacksCount") with
      | some v => some (max 0 v)
      | none => none

/-! ### Search query construction (wb_client.py, lines 287-295) -/

/-- Python `" ".join(l)`. -/
def joinSpace (l : List String) : String :=
  joinSep " " l

/-- Python `sorted` on strings: codepoint-lexicographic ascending. -/
def sortStrings (l : List String) : List String :=
  l.mergeSort (fun a b => decide (a ≤ b))

/-- `_build_search_query` (wb_client.py lines 287-295). -/
def build_search_query (title : String) : String :=
  let tokens := tokenize title
  if tokens.isEmpty then strTake (pyStrip title) 80
  else
    let model_tokens := sortStrings (extract_model_tokens title)
    if !model_tokens.isEmpty then joinSpace ((tokens ++ model_tokens).take 8)
    else joinSpace (tokens.take 6)

/-! ### Data structures of the matching engine -/

/-- `WbProductSnapshot` (wb_client.py lines 171-183). -/
structure WbProductSnapshot where
  wb_item_id : Int
  title : String
  price : Option ℚ
  rating : Option ℚ
  reviews : Option Int
  in_stock : Bool
  total_qty : Option Int
  sizes : List String
  brand : Option String := none
  entity : Option String := none
  subject_id : Option Int := none
deriving DecidableEq

/-- `WbSimilarProduct` (wb_client.py lines 186-191). -/
structure WbSimilarProduct where
  wb_item_id : Int
  title : String
  price : ℚ
  url : String
deriving DecidableEq

/-- `WbCatalogCategory` (wb_client.py lines 194-199); the `tokens` frozenset
is embedded as a deduplicated list. -/
structure WbCatalogCategory where
  name : String
  shard : String
  query : String
  tokens : List String
deriving DecidableEq

/-- `f"https://www.wildberries.ru/catalog/.../detail.aspx"` (the candidate
url built in both search sources). -/
def productUrl (nm_id : Int) : String :=
  "https://www.wildberries.ru/catalog/" ++ toString nm_id ++ "/detail.aspx"

/-! ### Matching engine: pass configuration and shared candidate gates

`_search_similar_all_sources` computes the per-search context once and runs
up to four passes; each pass queries the keyword-search source and the
catalog source.  The per-candidate gate block is duplicated verbatim between
the two source loops in the Python module (wb_client.py lines 910-983 and
1131-1211); it is embedded once below and used by both loop embeddings, with
the catalog loop adding its extra relevance check. -/

/-- The per-search reference context of `_search_similar_all_sources`
(wb_client.py lines 719-737), computed once and reused by every pass. -/
structure BaseCtx where
  base_title : String
  base_entity : Option String
  base_gender : Option String
  base_tokens : List String
  base_brand_tokens : List String
  base_anchor_tokens : List String
  base_type_tokens : List String
  base_model_tokens : List String
  base_ecosystem : Option String
  base_subject_id : Option Int
  max_price : ℚ
  exclude_wb_item_id : Int

/-- The knobs that vary between passes (arguments of `collect_pass`,
wb_client.py lines 745-751).  `min_relevance` is only used by the catalog
source. -/
structure PassCfg where
  min_match_percent : Int
  enforce_gender : Bool
  min_relevance : Int
  required_anchor_matches : Nat
  require_model_tokens : Bool

/-- The candidate subject-id mismatch check (wb_client.py lines 917-925). -/
def subject_mismatch (base_subject_id : Option Int) (product : JVal) : Bool :=
  match base_subject_id with
  | none => false
  | some base_sid =>
    match parse_int (pyOr (product.dGet "subjectId") (product.dGet "subjectID")) with
    | some cand_sid => cand_sid != base_sid
    | none => false

/-- The gate chain applied to a candidate after its id and price were
accepted (wb_client.py lines 931-983): title/text assembly, gender,
ecosystem, model tokens, brand, anchors, type tokens, match percent.
Returns the accepted `WbSimilarProduct`, or `none` when any gate rejects. -/
def candidate_gates (ctx : BaseCtx) (cfg : PassCfg) (nm_id : Int) (price : ℚ)
    (product : JVal) : Option WbSimilarProduct :=
  let title :=
    (pyOr (product.dGet "name")
      (pyOr (product.dGet "imt_name") (.str ("WB #" ++ toString nm_id)))).pyStr
  let candidate_text := title ++ " " ++ (pyOr (product.dGet "entity") (.str "")).pyStr
  let gender_reject :=
    match cfg.enforce_gender, ctx.base_gender with
    | true, some bg =>
      match detect_gender candidate_text with
      | some cand_gender => cand_gender != bg
      | none => false
    | _, _ => false
  if gender_reject then none
  else
    let candidate_tokens := characteristic_tokens candidate_text
    if !is_ecosystem_compatible ctx.base_ecosystem candidate_tokens then none
    else if cfg.require_model_tokens &&
        !model_tokens_compatible ctx.base_model_tokens candidate_text candidate_tokens then
      none
    else
      let brand_reject :=
        if ctx.base_brand_tokens.isEmpty then false
        else
          let candidate_brand_tokens :=
            (tokenize (pyOr (product.dGet "brand") (.str "")).pyStr).eraseDups
          !candidate_brand_tokens.isEmpty &&
            match_count ctx.base_brand_tokens candidate_brand_tokens == 0
      if brand_reject then none
      else if 0 < cfg.required_anchor_matches ∧
          match_count ctx.base_anchor_tokens candidate_tokens < cfg.required_anchor_matches then
        none
      else if ctx.base_type_tokens ≠ [] ∧
          match_count ctx.base_type_tokens candidate_tokens = 0 then
        none
      else if 0 < cfg.min_match_percent ∧
          match_percent ctx.base_tokens candidate_tokens < cfg.min_match_percent then
        none
      else some ⟨nm_id, title, price, productUrl nm_id⟩

/-- One candidate evaluation, from id parsing up to the shared gates
(wb_client.py lines 910-983, for a product already known to be a dict).
`ok none` means the loop `continue`d; the only raising step is
`_extract_price`. -/
def eval_candidate (ctx : BaseCtx) (cfg : PassCfg) (seen_ids : List Int)
    (product : JVal) : Except PyErr (Option WbSimilarProduct) :=
  match parse_int (pyOr (product.dGet "id") (product.dGet "nmId")) with
  | none => .ok none
  | some nm_id =>
    if nm_id ∈ seen_ids ∨ nm_id = ctx.exclude_wb_item_id then .ok none
    else if subject_mismatch ctx.base_subject_id product then .ok none
    else
      match extract_price product with
      | .error e => .error e
      | .ok none => .ok none
      | .ok (some price) =>
        if ctx.max_price ≤ price then .ok none
        else .ok (candidate_gates ctx cfg nm_id price product)

/-! ### Matching engine: keyword-search source (wb_client.py, lines 860-991) -/

/-- One modelled run of the engine's HTTP dependencies.  Each field holds the
final decoded JSON document of the corresponding request (`none` for any
HTTP failure, non-200 status, or undecodable body).  `searchResp t p` is the
response for search-URL template `t` (index into `SEARCH_WB_URLS`, line 28)
and page `p`; `catalogResp` is keyed by shard, query string, page, and the
optional subject filter of the request URL. -/
structure HttpOracle where
  searchResp : Nat → Nat → Option JVal
  menuResp : Option JVal
  catalogResp : String → String → Nat → Option Int → Option JVal

/-- `_get_json_with_retries` (wb_client.py lines 408-432): retries and sleeps
have no observable effect beyond the final outcome; a 200-response document
that is not a dict or list yields `None`, as does every failure. -/
def get_json_with_retries (resp : Option JVal) : Option JVal :=
  match resp with
  | some v => if v.isDict || v.isList then some v else none
  | none => none

/-- Extraction of the product list from one search-endpoint page
(wb_client.py lines 896-904), for `data` already known to be a dict. -/
def search_page_products (data : JVal) : List JVal :=
  match data.dGet "products" with
  | .arr products => products
  | _ =>
    let nested := data.dGet "data"
    if nested.isDict then
      match nested.dGet "products" with
      | .arr l => l
      | _ => []
    else []

/-- The `for product in products` loop of `_search_similar_with_search`
(wb_client.py lines 906-983), threading the `seen_ids` set and the `similar`
accumulator. -/
def search_products_loop (ctx : BaseCtx) (cfg : PassCfg) :
    List JVal → List Int → List WbSimilarProduct →
    Except PyErr (List Int × List WbSimilarProduct)
  | [], seen_ids, similar => .ok (seen_ids, similar)
  | product :: rest, seen_ids, similar =>
    if !product.isDict then search_products_loop ctx cfg rest seen_ids similar
    else
      match eval_candidate ctx cfg seen_ids product with
      | .error e => .error e
      | .ok none => search_products_loop ctx cfg rest seen_ids similar
      | .ok (some item) =>
        search_products_loop ctx cfg rest
          (seen_ids ++ [item.wb_item_id]) (similar ++ [item])

/-- The `for page in range(1, 3)` loop for one URL template
(wb_client.py lines 890-986), with its break on reaching `limit` after a
processed page and its `continue` on a non-dict response. -/
def search_pages_loop (oracle : HttpOracle) (ctx : BaseCtx) (cfg : PassCfg)
    (limit : Nat) (tmpl : Nat) :
    List Nat → List Int → List WbSimilarProduct →
    Except PyErr (List Int × List WbSimilarProduct)
  | [], seen_ids, similar => .ok (seen_ids, similar)
  | page :: rest, seen_ids, similar =>
    match get_json_with_retries (oracle.searchResp tmpl page) with
    | none => search_pages_loop oracle ctx cfg limit tmpl rest seen_ids similar
    | some data =>
      if !data.isDict then search_pages_loop oracle ctx cfg limit tmpl rest seen_ids similar
      else
        match search_products_loop ctx cfg (search_page_products data) seen_ids similar with
        | .error e => .error e
        | .ok (seen_ids', similar') =>
          if limit ≤ similar'.length then .ok (seen_ids', similar')
          else search_pages_loop oracle ctx cfg limit tmpl rest seen_ids' similar'

/-- The `for template in SEARCH_WB_URLS` loop (wb_client.py lines 889-988),
with its break on reaching `limit` after a template. -/
def search_templates_loop (oracle : HttpOracle) (ctx : BaseCtx) (cfg : PassCfg)
    (limit : Nat) :
    List Nat → List Int → List WbSimilarProduct →
    Except PyErr (List WbSimilarProduct)
  | [], _, similar => .ok similar
  | tmpl :: rest, seen_ids, similar =>
    match search_pages_loop oracle ctx cfg limit tmpl [1, 2] seen_ids similar with
    | .error e => .error e
    | .ok (seen_ids', similar') =>
      if limit ≤ similar'.length then .ok similar'
      else search_templates_loop oracle ctx cfg limit rest seen_ids' similar'

/-- `_search_similar_with_search` (wb_client.py lines 860-991).  `seen_ids`
starts as a copy of `skip_ids`; the result is sorted ascending by price and
truncated to `limit`. -/
def search_similar_with_search (oracle : HttpOracle) (ctx : BaseCtx)
    (cfg : PassCfg) (limit : Nat) (skip_ids : List Int) :
    Except PyErr (List WbSimilarProduct) :=
  let query := build_search_query ctx.base_title
  if query = "" then .ok []
  else
    match search_templates_loop oracle ctx cfg limit [0, 1] skip_ids [] with
    | .error e => .error e
    | .ok similar =>
      .ok ((similar.mergeSort (fun a b => decide (a.price ≤ b.price))).take limit)

/-! ### Matching engine: catalog source (wb_client.py, lines 994-1219) -/

/-- The module-level menu cache `_MENU_CACHE` / `_MENU_CACHE_TS`
(wb_client.py lines 159-161), threaded explicitly through the embedding.
`fresh` stands for the TTL check `now - _MENU_CACHE_TS < _MENU_CACHE_TTL_SEC`
at the moment of the call. -/
structure MenuCacheState where
  cache : Option (List WbCatalogCategory)
  fresh : Bool

mutual

/-- Executable size of a JSON document; exceeds its nesting depth. -/
def JVal.size : JVal → Nat
  | .null => 1
  | .bool _ => 1
  | .int _ => 1
  | .float _ => 1
  | .str _ => 1
  | .arr items => 1 + JVal.sizeList items
  | .obj fields => 1 + JVal.sizeFields fields

/-- Combined size of a list of JSON documents. -/
def JVal.sizeList : List JVal → Nat
  | [] => 0
  | v :: rest => JVal.size v + JVal.sizeList rest

/-- Combined size of the values of a JSON object. -/
def JVal.sizeFields : List (String × JVal) → Nat
  | [] => 0
  | (_, v) :: rest => JVal.size v + JVal.sizeFields rest

end

/-- The recursive `walk` of `_load_catalog_categories` (wb_client.py lines
1008-1037), collecting `(shard, query)`-deduplicated leaf categories in
traversal order.  `fuel` bounds the recursion depth; it is instantiated with
`JVal.size` of the whole document, which strictly exceeds any nesting depth,
so the embedding agrees with Python's unbounded recursion. -/
def walk_menu (fuel : Nat) (items : List JVal)
    (seen : List (String × String)) (acc : List WbCatalogCategory) :
    List (String × String) × List WbCatalogCategory :=
  match fuel, items with
  | _, [] => (seen, acc)
  | 0, _ :: _ => (seen, acc)
  | fuel + 1, item :: rest =>
    if !item.isDict then walk_menu (fuel + 1) rest seen acc
    else
      let name := pyStrip (pyOr (item.dGet "name") (.str "")).pyStr
      let shard := item.dGet "shard"
      let query := item.dGet "query"
      let (seen, acc) :=
        match shard, query with
        | .str shard_s, .str query_s =>
          if shard_s ≠ "" ∧ shard_s ≠ "blackhole" ∧ shard_s ≠ "c2c" ∧ query_s ≠ "" then
            if (shard_s, query_s) ∈ seen then (seen, acc)
            else
              (seen ++ [(shard_s, query_s)],
               acc ++ [⟨name, shard_s, query_s, (tokenize name).eraseDups⟩])
          else (seen, acc)
        | _, _ => (seen, acc)
      let children := pyOr (item.dGet "childs") (pyOr (item.dGet "children") (.arr []))
      let (seen, acc) :=
        match children with
        | .arr child_items => walk_menu fuel child_items seen acc
        | _ => (seen, acc)
      walk_menu (fuel + 1) rest seen acc
termination_by (fuel, items.length)

/-- `_load_catalog_categories` (wb_client.py lines 994-1044): serve the cache
while fresh; on fetch failure fall back to the (possibly stale) cache or an
empty list; on success parse the menu and refresh the cache. -/
def load_catalog_categories (st : MenuCacheState) (menuResp : Option JVal) :
    List WbCatalogCategory × MenuCacheState :=
  match st.cache, st.fresh with
  | some cats, true => (cats, st)
  | _, _ =>
    match get_json_with_retries menuResp with
    | none => (st.cache.getD [], st)
    | some raw_menu =>
      let categories :=
        match raw_menu with
        | .arr items => (walk_menu (JVal.size raw_menu) items [] []).2
        | _ => []
      (categories, ⟨some categories, true⟩)

/-- `_fetch_catalog_products` (wb_client.py lines 1047-1064). -/
def fetch_catalog_products (oracle : HttpOracle) (shard query : String)
    (page : Nat) (subject_id : Option Int) : List JVal :=
  match get_json_with_retries (oracle.catalogResp shard query page subject_id) with
  | some data =>
    if !data.isDict then []
    else
      match data.dGet "products" with
      | .arr products => products.filter (fun p => p.isDict)
      | _ => []
  | none => []

/-- Category scoring (wb_client.py lines 1096-1100): keep the categories with
positive fuzzy overlap against the reference tokens. -/
def score_categories (base_tokens : List String)
    (categories : List WbCatalogCategory) : List (Nat × WbCatalogCategory) :=
  categories.filterMap (fun category =>
    let score := overlap_score base_tokens category.tokens
    if 0 < score then some (score, category) else none)

/-- The `for product in products` loop of `_search_similar_with_catalog`
(wb_client.py lines 1130-1211): the shared gates followed by the relevance
check, accumulating `(relevance, item)` pairs. -/
def catalog_products_loop (ctx : BaseCtx) (cfg : PassCfg) :
    List JVal → List Int → List (Nat × WbSimilarProduct) →
    Except PyErr (List Int × List (Nat × WbSimilarProduct))
  | [], seen_ids, candidates => .ok (seen_ids, candidates)
  | product :: rest, seen_ids, candidates =>
    match eval_candidate ctx cfg seen_ids product with
    | .error e => .error e
    | .ok none => catalog_products_loop ctx cfg rest seen_ids candidates
    | .ok (some item) =>
      let relevance := overlap_score ctx.base_tokens ((tokenize item.title).eraseDups)
      if (relevance : Int) < cfg.min_relevance then
        catalog_products_loop ctx cfg rest seen_ids candidates
      else
        catalog_products_loop ctx cfg rest
          (seen_ids ++ [item.wb_item_id]) (candidates ++ [(relevance, item)])

/-- One page's product list for a category, with the subject-filter retry
(wb_client.py lines 1112-1126). -/
def catalog_page_products (oracle : HttpOracle) (ctx : BaseCtx)
    (category : WbCatalogCategory) (page : Nat) : List JVal :=
  let products :=
    fetch_catalog_products oracle category.shard category.query page ctx.base_subject_id
  if products.isEmpty ∧ ctx.base_subject_id ≠ none then
    fetch_catalog_products oracle category.shard category.query page none
  else products

/-- The `for page in range(1, 3)` loop for one category (wb_client.py lines
1111-1214), with its break on an empty page and on reaching `limit`. -/
def catalog_pages_loop (oracle : HttpOracle) (ctx : BaseCtx) (cfg : PassCfg)
    (limit : Nat) (category : WbCatalogCategory) :
    List Nat → List Int → List (Nat × WbSimilarProduct) →
    Except PyErr (List Int × List (Nat × WbSimilarProduct))
  | [], seen_ids, candidates => .ok (seen_ids, candidates)
  | page :: rest, seen_ids, candidates =>
    let products := catalog_page_products oracle ctx category page
    if products.isEmpty then .ok (seen_ids, candidates)
    else
      match catalog_products_loop ctx cfg products seen_ids candidates with
      | .error e => .error e
      | .ok (seen_ids', candidates') =>
        if limit ≤ candidates'.length then .ok (seen_ids', candidates')
        else catalog_pages_loop oracle ctx cfg limit category rest seen_ids' candidates'

/-- The `for _, category in scored_categories[:max_categories]` loop
(wb_client.py lines 1110-1216). -/
def catalog_categories_loop (oracle : HttpOracle) (ctx : BaseCtx) (cfg : PassCfg)
    (limit : Nat) :
    List WbCatalogCategory → List Int → List (Nat × WbSimilarProduct) →
    Except PyErr (List (Nat × WbSimilarProduct))
  | [], _, candidates => .ok candidates
  | category :: rest, seen_ids, candidates =>
    match catalog_pages_loop oracle ctx cfg limit category [1, 2] seen_ids candidates with
    | .error e => .error e
    | .ok (seen_ids', candidates') =>
      if limit ≤ candidates'.length then .ok candidates'
      else catalog_categories_loop oracle ctx cfg limit rest seen_ids' candidates'

/-- `_search_similar_with_catalog` (wb_client.py lines 1067-1219).  Scored
categories are sorted by score descending (stably), the top 8 are browsed,
and the result is sorted by `(price, -relevance)` and truncated to `limit`. -/
def search_similar_with_catalog (oracle : HttpOracle) (st : MenuCacheState)
    (ctx : BaseCtx) (cfg : PassCfg) (limit : Nat) (skip_ids : List Int) :
    Except PyErr (List WbSimilarProduct) × MenuCacheState :=
  if ctx.base_tokens.isEmpty then (.ok [], st)
  else
    let cfg := { cfg with min_relevance := if cfg.min_relevance < 0 then 0 else cfg.min_relevance }
    let (categories, st') := load_catalog_categories st oracle.menuResp
    let scored_categories := score_categories ctx.base_tokens categories
    if scored_categories.isEmpty then (.ok [], st')
    else
      let scored_categories :=
        scored_categories.mergeSort (fun a b => decide (b.1 ≤ a.1))
      let max_categories := 8
      match catalog_categories_loop oracle ctx cfg limit
          ((scored_categories.take max_categories).map (fun x => x.2)) skip_ids [] with
      | .error e => (.error e, st')
      | .ok candidates =>
        let sorted := candidates.mergeSort (fun a b =>
          decide (a.2.price < b.2.price ∨ (a.2.price = b.2.price ∧ b.1 ≤ a.1)))
        (.ok ((sorted.take limit).map (fun x => x.2)), st')

/-! ### Matching engine: staged relaxation (wb_client.py, lines 707-857) -/

/-- The `combined` / `seen_ids` accumulators of `_search_similar_all_sources`
(wb_client.py lines 742-743). -/
structure SimilarAcc where
  combined : List WbSimilarProduct
  seen_ids : List Int

/-- The merge loops of `collect_pass` (wb_client.py lines 776-780 and
807-811): append source items whose id is still unseen. -/
def merge_found (acc : SimilarAcc) : List WbSimilarProduct → SimilarAcc
  | [] => acc
  | item :: rest =>
    if item.wb_item_id ∈ acc.seen_ids then merge_found acc rest
    else merge_found ⟨acc.combined ++ [item], acc.seen_ids ++ [item.wb_item_id]⟩ rest

/-- The pass-2 threshold (wb_client.py line 739): `max(20, strict - 15)`. -/
def relaxed_match_percent (strict : Int) : Int :=
  max 20 (strict - 15)

/-- The pass-3/4 threshold (wb_client.py line 740): `max(10, strict - 30)`. -/
def minimal_match_percent (strict : Int) : Int :=
  max 10 (strict - 30)

/-- `collect_pass` (wb_client.py lines 745-811): query the search source,
merge, then (if still under `limit`) the catalog source, merge. -/
def collect_pass (oracle : HttpOracle) (ctx : BaseCtx) (cfg : PassCfg)
    (limit : Nat) (acc : SimilarAcc) (st : MenuCacheState) :
    Except PyErr (SimilarAcc × MenuCacheState) :=
  if limit ≤ acc.combined.length then .ok (acc, st)
  else
    match search_similar_with_search oracle ctx cfg (limit - acc.combined.length)
        acc.seen_ids with
    | .error e => .error e
    | .ok by_search =>
      let acc := merge_found acc by_search
      if limit ≤ acc.combined.length then .ok (acc, st)
      else
        match search_similar_with_catalog oracle st ctx cfg
            (limit - acc.combined.length) acc.seen_ids with
        | (.error e, _) => .error e
        | (.ok by_catalog, st') => .ok (merge_found acc by_catalog, st')

/-- `_search_similar_all_sources` (wb_client.py lines 707-857): build the
search context, run the strict pass, then up to three relaxation passes while
no candidate was found, and return the combined results sorted ascending by
price, truncated to `limit`. -/
def search_similar_all_sources (oracle : HttpOracle) (st : MenuCacheState)
    (base_title : String) (max_price : ℚ) (exclude_wb_item_id : Int)
    (base_entity : Option String) (base_brand : Option String)
    (base_subject_id : Option Int) (match_percent_threshold : Option Int)
    (limit : Nat) : Except PyErr (List WbSimilarProduct) :=
  let base_text := base_title ++ " " ++ (base_entity.getD "")
  let base_gender := detect_gender base_text
  let base_tokens := characteristic_tokens base_text
  let base_model_tokens := extract_model_tokens base_text
  if base_tokens.isEmpty then .ok []
  else
    let raw_brand_tokens := (tokenize (base_brand.getD "")).eraseDups
    let base_brand_tokens :=
      if !raw_brand_tokens.isEmpty && 0 < match_count raw_brand_tokens base_tokens
      then raw_brand_tokens else []
    let base_anchor_tokens := anchor_tokens base_tokens
    let base_type_tokens := base_tokens.filter (fun t => TYPE_TOKENS.contains t)
    let req_anchor := required_anchor_matches base_anchor_tokens
    let strong_anchor_count := (base_anchor_tokens.filter is_latin_or_digit_token).length
    let base_ecosystem := detect_ecosystem base_tokens
    let strict_match_percent := normalize_match_percent match_percent_threshold
    let ctx : BaseCtx :=
      ⟨base_title, base_entity, base_gender, base_tokens, base_brand_tokens,
       base_anchor_tokens, base_type_tokens, base_model_tokens, base_ecosystem,
       base_subject_id, max_price, exclude_wb_item_id⟩
    let cfg1 : PassCfg :=
      ⟨strict_match_percent, true, if 3 ≤ base_tokens.length then 2 else 1,
       req_anchor, true⟩
    let relaxed_anchor_matches :=
      if 2 ≤ strong_anchor_count then req_anchor else max 1 (req_anchor - 1)
    let cfg2 : PassCfg :=
      ⟨relaxed_match_percent strict_match_percent, false, 1, relaxed_anchor_matches, true⟩
    let minimal_anchor_matches :=
      if 2 ≤ strong_anchor_count then req_anchor else max 1 (req_anchor - 1)
    let cfg3 : PassCfg :=
      ⟨minimal_match_percent strict_match_percent, false, 0, minimal_anchor_matches, true⟩
    let cfg4 : PassCfg :=
      ⟨minimal_match_percent strict_match_percent, false, 0, minimal_anchor_matches - 1, false⟩
    match collect_pass oracle ctx cfg1 limit ⟨[], []⟩ st with
    | .error e => .error e
    | .ok (acc1, st1) =>
      match (if acc1.combined.isEmpty then collect_pass oracle ctx cfg2 limit acc1 st1
             else .ok (acc1, st1)) with
      | .error e => .error e
      | .ok (acc2, st2) =>
        match (if acc2.combined.isEmpty then collect_pass oracle ctx cfg3 limit acc2 st2
               else .ok (acc2, st2)) with
        | .error e => .error e
        | .ok (acc3, st3) =>
          match (if acc3.combined.isEmpty ∧ base_model_tokens ≠ [] then
                   collect_pass oracle ctx cfg4 limit acc3 st3
                 else .ok (acc3, st3)) with
          | .error e => .error e
          | .ok (acc4, _) =>
            .ok ((acc4.combined.mergeSort (fun a b => decide (a.price ≤ b.price))).take limit)

/-- `search_similar_cheaper` (wb_client.py lines 668-704): a thin wrapper
that delegates to `_search_similar_all_sources` (session construction has no
observable behaviour in the embedding).  This is the `find_cheaper` entry
point of the specification. -/
def search_similar_cheaper (oracle : HttpOracle) (st : MenuCacheState)
    (base_title : String) (max_price : ℚ) (exclude_wb_item_id : Int)
    (base_entity : Option String) (base_brand : Option String)
    (base_subject_id : Option Int) (match_percent_threshold : Option Int)
    (limit : Nat) : Except PyErr (List WbSimilarProduct) :=
  search_similar_all_sources oracle st base_title max_price exclude_wb_item_id
    base_entity base_brand base_subject_id match_percent_threshold limit

/-! ### Snapshot fetching: `_fetch_and_cache` (wb_client.py, lines 1222-1297)

Unlike the two search loops, the parsing here contains `.get`, indexing,
iteration and `int()` calls that are not isinstance-guarded; they are
embedded with `Except` semantics so that the raising behaviour on malformed
payloads is visible. -/

/-- Unguarded `x.get(k)`: raises `AttributeError` when `x` is not a dict. -/
def pyGet (v : JVal) (k : String) : Except PyErr JVal :=
  match v with
  | .obj fields => .ok ((List.lookup k fields).getD .null)
  | _ => .error .typeErr

/-- Unguarded `x.get(k, default)`. -/
def pyGetD (v : JVal) (k : String) (dflt : JVal) : Except PyErr JVal :=
  match v with
  | .obj fields => .ok ((List.lookup k fields).getD dflt)
  | _ => .error .typeErr

/-- `x[0]`: first element of a list (or first character of a string); raises
for every other payload shape. -/
def pyIndexZero (v : JVal) : Except PyErr JVal :=
  match v with
  | .arr (x :: _) => .ok x
  | .str s => .ok (.str (strTake s 1))
  | _ => .error .typeErr

/-- `x or []` used as an iteration source: falsy values iterate as empty,
lists iterate their items, strings their characters, dicts their keys;
numbers and `True` raise `TypeError`. -/
def pyIterOrEmpty (v : JVal) : Except PyErr (List JVal) :=
  if !v.truthy then .ok []
  else
    match v with
    | .arr l => .ok l
    | .str s => .ok (s.data.map (fun c => .str (String.mk [c])))
    | .obj fields => .ok (fields.map (fun f => .str f.1))
    | _ => .error .typeErr

/-- Python `int()` truncation toward zero of an exact rational. -/
def ratTrunc (q : ℚ) : Int :=
  if 0 ≤ q then ⌊q⌋ else -⌊-q⌋

/-- Python `int(x)`: ints pass through, bools coerce to 0/1, floats truncate,
strings parse (raising `ValueError` on non-numeric text), and every other
type — including `None` — raises `TypeError`. -/
def pyInt (v : JVal) : Except PyErr Int :=
  match v with
  | .int n => .ok n
  | .bool b => .ok (if b then 1 else 0)
  | .float q => .ok (ratTrunc q)
  | .str s =>
    match strToInt? (pyStrip s) with
    | some n => .ok n
    | none => .error .valueErr
  | _ => .error .typeErr

/-- `_norm_size` (wb_client.py lines 1243-1247). -/
def norm_size (raw : JVal) : Option String :=
  let val := pyStrip (pyOr raw (.str "")).pyStr
  if val = "" ∨ val = "0" ∨ val = "00" ∨ val = "none" ∨ val = "None" then none
  else some val

/-- The sizes set comprehension (wb_client.py lines 1249-1256) before
dedup/sort: `s.get("name")` is unguarded and raises on non-dict items. -/
def collect_sizes : List JVal → Except PyErr (List String)
  | [] => .ok []
  | s :: rest => do
    let name ← pyGet s "name"
    let others ← collect_sizes rest
    match norm_size name with
    | some size => .ok (size :: others)
    | none => .ok others

/-- The inner `for stock in s.get("stocks") or []` loop (wb_client.py lines
1261-1266): non-dict stock entries are skipped; `int(stock.get("qty", 0))`
raises on a missing-but-explicitly-null, wrong-typed or non-numeric `qty`. -/
def stock_items_fold : List JVal → Bool × Int → Except PyErr (Bool × Int)
  | [], st => .ok st
  | stock :: rest, (in_stock, total_qty) =>
    if !stock.isDict then stock_items_fold rest (in_stock, total_qty)
    else do
      let qty ← pyInt (stock.dGetD "qty" (.int 0))
      stock_items_fold rest (in_stock || decide (0 < qty), total_qty + max 0 qty)

/-- The outer `for s in sizes_data` stock loop (wb_client.py lines
1258-1266): `s.get("stocks")` is unguarded and raises on non-dict items. -/
def stocks_fold : List JVal → Bool × Int → Except PyErr (Bool × Int)
  | [], st => .ok st
  | s :: rest, st => do
    let stocks ← pyGet s "stocks"
    let stock_items ← pyIterOrEmpty stocks
    let st' ← stock_items_fold stock_items st
    stocks_fold rest st'

/-- The parsing half of `_fetch_and_cache` (wb_client.py lines 1228-1284):
from the response status and decoded JSON document to the snapshot (the HTTP
request itself and the Redis cache write of lines 1286-1295 are I/O outside
the parse).  A non-200 status or an empty product list yields `ok none`
("not found"); malformed payloads can raise. -/
def fetch_and_cache_parse (wb_item_id : Int) (status : Nat) (data : JVal) :
    Except PyErr (Option WbProductSnapshot) :=
  if status ≠ 200 then .ok none
  else do
    let products_a ← pyGet data "products"
    let products ←
      if products_a.truthy then pure products_a
      else do
        let nested ← pyGetD data "data" (.obj [])
        pyGetD nested "products" (.arr [])
    if !products.truthy then .ok none
    else do
      let p ← pyIndexZero products
      if !p.isDict then .ok none
      else do
        let title :=
          (pyOr (p.dGet "name")
            (pyOr (p.dGet "imt_name") (.str ("WB #" ++ toString wb_item_id)))).pyStr
        let sizes_data :=
          match p.dGet "sizes" with
          | .arr l => l
          | _ => []
        let raw_sizes ← collect_sizes sizes_data
        let sizes := sortStrings raw_sizes.eraseDups
        let (in_stock, total_qty) ← stocks_fold sizes_data (false, 0)
        let price ← extract_price p
        let rating ← extract_rating p
        let reviews := extract_reviews p
        .ok (some
          { wb_item_id := wb_item_id
            title := title
            price := price
            rating := rating
            reviews := reviews
            in_stock := in_stock
            total_qty := some total_qty
            sizes := sizes
            brand := if (p.dGet "brand").truthy then some (p.dGet "brand").pyStr else none
            entity := if (p.dGet "entity").truthy then some (p.dGet "entity").pyStr else none
            subject_id := parse_int (p.dGet "subjectId") })

/-! ### SHA-256 (for `_hash_event`, worker.py lines 54-55)

A direct implementation of FIPS 180-4 over byte lists, with 32-bit words as
naturals reduced mod `2 ^ 32`.  `hashlib.sha256(...).hexdigest()` is this
function's lowercase hex output. -/

/-- Right rotation of a 32-bit word. -/
def rotr32 (x n : Nat) : Nat :=
  ((x >>> n) ||| (x <<< (32 - n))) % 4294967296

/-- SHA-256 Σ₀. -/
def shaBigSigma0 (x : Nat) : Nat :=
  rotr32 x 2 ^^^ rotr32 x 13 ^^^ rotr32 x 22

/-- SHA-256 Σ₁. -/
def shaBigSigma1 (x : Nat) : Nat :=
  rotr32 x 6 ^^^ rotr32 x 11 ^^^ rotr32 x 25

/-- SHA-256 σ₀. -/
def shaSmallSigma0 (x : Nat) : Nat :=
  rotr32 x 7 ^^^ rotr32 x 18 ^^^ (x >>> 3)

/-- SHA-256 σ₁. -/
def shaSmallSigma1 (x : Nat) : Nat :=
  rotr32 x 17 ^^^ rotr32 x 19 ^^^ (x >>> 10)

/-- SHA-256 Ch. -/
def shaCh (x y z : Nat) : Nat :=
  (x &&& y) ^^^ ((x ^^^ 4294967295) &&& z)

/-- SHA-256 Maj. -/
def shaMaj (x y z : Nat) : Nat :=
  (x &&& y) ^^^ (x &&& z) ^^^ (y &&& z)

/-- The 64 SHA-256 round constants (FIPS 180-4, in decimal). -/
def shaK : List Nat :=
  [1116352408, 1899447441, 3049323471, 3921009573,
   961987163, 1508970993, 2453635748, 2870763221,
   3624381080, 310598401, 607225278, 1426881987,
   1925078388, 2162078206, 2614888103, 3248222580,
   3835390401, 4022224774, 264347078, 604807628,
   770255983, 1249150122, 1555081692, 1996064986,
   2554220882, 2821834349, 2952996808, 3210313671,
   3336571891, 3584528711, 113926993, 338241895,
   666307205, 773529912, 1294757372, 1396182291,
   1695183700, 1986661051, 2177026350, 2456956037,
   2730485921, 2820302411, 3259730800, 3345764771,
   3516065817, 3600352804, 4094571909, 275423344,
   430227734, 506948616, 659060556, 883997877,
   958139571, 1322822218, 1537002063, 1747873779,
   1955562222, 2024104815, 2227730452, 2361852424,
   2428436474, 2756734187, 3204031479, 3329325298]

/-- The SHA-256 initial hash value (in decimal). -/
def shaH0 : List Nat :=
  [1779033703, 3144134277, 1013904242, 2773480762,
   1359893119, 2600822924, 528734635, 1541459225]

/-- Big-endian 64-bit length encoding. -/
def shaLen64 (bits : Nat) : List Nat :=
  (List.range 8).map (fun i => (bits >>> (8 * (7 - i))) % 256)

/-- Message padding: append `0x80`, zeros to 56 mod 64, and the bit length. -/
def shaPad (msg : List Nat) : List Nat :=
  let zeros := (64 - (msg.length + 9) % 64) % 64
  msg ++ [0x80] ++ List.replicate zeros 0 ++ shaLen64 (8 * msg.length)

/-- Pack bytes into big-endian 32-bit words. -/
def shaWords : List Nat → List Nat
  | b0 :: b1 :: b2 :: b3 :: rest =>
    (((b0 * 256 + b1) * 256 + b2) * 256 + b3) :: shaWords rest
  | _ => []

/-- Extend the 16 message words by `n` further schedule words. -/
def shaExtend : Nat → List Nat → List Nat
  | 0, ws => ws
  | n + 1, ws =>
    let i := ws.length
    let w := (shaSmallSigma1 (ws.getD (i - 2) 0) + ws.getD (i - 7) 0 +
              shaSmallSigma0 (ws.getD (i - 15) 0) + ws.getD (i - 16) 0) % 4294967296
    shaExtend n (ws ++ [w])

/-- One compression round on the eight-word state. -/
def shaRound (k w : Nat) : List Nat → List Nat
  | [a, b, c, d, e, f, g, h] =>
    let t1 := (h + shaBigSigma1 e + shaCh e f g + k + w) % 4294967296
    let t2 := (shaBigSigma0 a + shaMaj a b c) % 4294967296
    [(t1 + t2) % 4294967296, a, b, c, (d + t1) % 4294967296, e, f, g]
  | st => st

/-- Process one 64-byte block. -/
def shaBlock (st : List Nat) (block : List Nat) : List Nat :=
  let ws := shaExtend 48 (shaWords block)
  let st' := (shaK.zip ws).foldl (fun s kw => shaRound kw.1 kw.2 s) st
  List.zipWith (fun x y => (x + y) % 4294967296) st st'

/-- Split into 64-byte chunks. -/
def chunks64 (l : List Nat) : List (List Nat) :=
  if l.isEmpty then []
  else l.take 64 :: chunks64 (l.drop 64)
termination_by l.length
decreasing_by
  rename_i hne
  have hnil : l ≠ [] := by simpa [List.isEmpty_iff] using hne
  have hpos : 0 < l.length := List.length_pos.2 hnil
  simp [List.length_drop]
  omega

/-- A hex digit character (lowercase). -/
def hexDigit (n : Nat) : Char :=
  if n < 10 then Char.ofNat (48 + n) else Char.ofNat (87 + n)

/-- Lowercase hex of a 32-bit word. -/
def wordToHex (w : Nat) : String :=
  String.mk ((List.range 8).map (fun i => hexDigit ((w >>> (4 * (7 - i))) % 16)))

/-- `hashlib.sha256(bytes).hexdigest()`: the 64-character lowercase hex
digest of a byte sequence. -/
def sha256_hex (msg : List Nat) : String :=
  let final := (chunks64 (shaPad msg)).foldl shaBlock shaH0
  String.join (final.map wordToHex)

/-- UTF-8 bytes of a string, as naturals (`str.encode()`). -/
def utf8Bytes (s : String) : List Nat :=
  s.toUTF8.toList.map (fun b => b.toNat)

/-! ### Worker: change detection and backoff (worker.py) -/

/-- `ERROR_LIMIT` (worker.py line 31). -/
def ERROR_LIMIT : Int := 5

/-- `_hash_event` (worker.py lines 54-55):
the first 48 hex characters of the SHA-256 digest of
`f"..."` interpolating the track id, the event kind and the rendered
payload, joined by colons. -/
def hash_event (track_id : Int) (kind payload : String) : String :=
  strTake (sha256_hex (utf8Bytes (toString track_id ++ ":" ++ kind ++ ":" ++ payload))) 48

/-- `_price_drop_percent` (worker.py lines 48-51).  `Decimal` arithmetic is
embedded as exact rational arithmetic (for the 2-decimal-place prices stored
by this schema, the 28-significant-digit `Decimal` division can never move
`int()` across an integer boundary). -/
def price_drop_percent (old new : Option ℚ) : Int :=
  match old, new with
  | some o, some n =>
    if o ≤ 0 ∨ o ≤ n then 0
    else ratTrunc ((o - n) / o * 100)
  | _, _ => 0

/-- The track row (`TrackModel`, db/models.py lines 69-105), joined with its
user's telegram id and plan (`MonitorUserModel`) as `run_cycle` accesses
them.  Timestamps are rationals in minutes. -/
structure Track where
  id : Int
  user_tg_id : Int
  user_plan : String
  wb_item_id : Int
  url : String
  title : String
  target_price : Option ℚ
  target_drop_percent : Option Int
  watch_stock : Bool
  watch_qty : Bool
  watch_sizes : List String
  is_active : Bool
  is_deleted : Bool
  check_interval_min : Int
  error_count : Int
  last_price : Option ℚ
  last_rating : Option ℚ
  last_reviews : Option Int
  last_in_stock : Option Bool
  last_qty : Option Int
  last_sizes : Option (List String)
  last_checked_at : Option ℚ
  last_notified_at : Option ℚ
deriving DecidableEq

/-- The semantic events appended to `events` by the detection block
(worker.py lines 78-137), with the payload values interpolated into each
message. -/
inductive WbEvent where
  | price_target (price target : ℚ)
  | price_drop (percent : Int) (old new : Option ℚ)
  | in_stock
  | stock_changed (direction : String) (old new : Int)
  | sizes_appeared (sizes : List String)
  | sizes_gone (sizes : List String)
deriving DecidableEq

/-- `str()` of an optional `Decimal` as interpolated into the message
templates (`str(None)` is `"None"`).  `Decimal` prints its stored scale
digits; the embedding prints the canonical rational — no theorem depends on
the digit text. -/
def strOptQ : Option ℚ → String
  | none => "None"
  | some q => toString q

/-- The rendered message text of one event (`_MSG` templates, worker.py
lines 33-41, via `_msg`). -/
def render_event : WbEvent → String
  | .price_target price target =>
    "💸 Цена достигла цели: " ++ toString price ++ " ₽ (цель: " ++ toString target ++ " ₽)"
  | .price_drop percent old new =>
    "📉 Падение цены на " ++ toString percent ++ "%: " ++ strOptQ old ++ " ₽ → " ++ strOptQ new ++ " ₽"
  | .in_stock => "✅ Товар снова в наличии"
  | .stock_changed direction old new =>
    "📦 Остаток изменился " ++ direction ++ ": " ++ toString old ++ " → " ++ toString new
  | .sizes_appeared sizes => "📏 Появились размеры: " ++ joinSep ", " sizes
  | .sizes_gone sizes => "📏 Исчезли размеры: " ++ joinSep ", " sizes

/-- The price-target branch (worker.py lines 80-91): target set, new price
known, new price at or below target. -/
def price_target_events (t : Track) (snap : WbProductSnapshot) : List WbEvent :=
  match t.target_price, snap.price with
  | some target, some price =>
    if price ≤ target then [.price_target price target] else []
  | _, _ => []

/-- The price-drop branch (worker.py lines 93-102).  Python's
`if t.target_drop_percent and drop >= t.target_drop_percent` tests integer
truthiness, so an unset or zero drop target skips the branch but any nonzero
value — including a negative one — enters it. -/
def price_drop_events (t : Track) (snap : WbProductSnapshot) : List WbEvent :=
  let drop := price_drop_percent t.last_price snap.price
  match t.target_drop_percent with
  | some d =>
    if d ≠ 0 ∧ d ≤ drop then [.price_drop drop t.last_price snap.price] else []
  | none => []

/-- The back-in-stock branch (worker.py line 104-105): watch enabled,
previous state explicitly out-of-stock, now in stock. -/
def in_stock_events (t : Track) (snap : WbProductSnapshot) : List WbEvent :=
  if t.watch_stock ∧ t.last_in_stock = some false ∧ snap.in_stock then
    [.in_stock]
  else []

/-- The quantity-changed branch (worker.py lines 107-122): pro plan,
quantity watch on, both quantities known and different. -/
def qty_events (t : Track) (snap : WbProductSnapshot) : List WbEvent :=
  match t.last_qty, snap.total_qty with
  | some last_qty, some new_qty =>
    if t.user_plan = "pro" ∧ t.watch_qty ∧ last_qty ≠ new_qty then
      [.stock_changed (if last_qty < new_qty then "⬆️" else "⬇️") last_qty new_qty]
    else []
  | _, _ => []

/-- The watched-sizes branch (worker.py lines 124-137): appeared =
`watched & (curr - prev)`, gone = `watched & (prev - curr)`, each sorted and
emitted when nonempty. -/
def sizes_events (t : Track) (snap : WbProductSnapshot) : List WbEvent :=
  if t.watch_sizes ≠ [] then
    let watched := t.watch_sizes.eraseDups
    let prev := (t.last_sizes.getD []).eraseDups
    let curr := snap.sizes.eraseDups
    let appeared := sortStrings (watched.filter (fun s => s ∈ curr ∧ s ∉ prev))
    let gone := sortStrings (watched.filter (fun s => s ∈ prev ∧ s ∉ curr))
    (if appeared ≠ [] then [.sizes_appeared appeared] else []) ++
      (if gone ≠ [] then [.sizes_gone gone] else [])
  else []

/-- The change-detection block of `run_cycle` (worker.py lines 78-137): the
ordered event list built for one track against a fresh snapshot — the five
branches append in source order. -/
def detect_events (t : Track) (snap : WbProductSnapshot) : List WbEvent :=
  price_target_events t snap ++ price_drop_events t snap ++
    in_stock_events t snap ++ qty_events t snap ++ sizes_events t snap

/-! ### Repository: due-track selection and event dedup (repository.py) -/

/-- `AlertLogModel` (db/models.py lines 134-150): one append-only
deduplication record. -/
structure AlertLogEntry where
  track_id : Int
  event_type : String
  event_hash : String
  sent_at : ℚ
deriving DecidableEq

/-- `due_tracks_python_safe` (repository.py lines 555-570): the SQL filter
keeps active, non-deleted tracks; the Python loop then keeps those never
checked, or last checked at least `check_interval_min` minutes ago
(`t.last_checked_at <= now - timedelta(minutes=t.check_interval_min)`).
The interval is read from the row at due-check time. -/
def due_tracks_python_safe (tracks : List Track) (now : ℚ) : List Track :=
  let rows := tracks.filter (fun t => t.is_active && !t.is_deleted)
  rows.filter (fun t =>
    match t.last_checked_at with
    | none => true
    | some last_checked => decide (last_checked ≤ now - t.check_interval_min))

/-- `is_duplicate_event` (repository.py lines 573-584).  `now` is the
`datetime.now(UTC)` read inside the function; with timestamps in minutes,
`timedelta(hours=h)` is `60 * h`. -/
def is_duplicate_event (log : List AlertLogEntry) (track_id : Int)
    (event_hash : String) (now : ℚ) (within_hours : Int := 24) : Bool :=
  let since := now - 60 * within_hours
  log.any (fun e =>
    e.track_id == track_id && e.event_hash == event_hash && decide (since ≤ e.sent_at))

/-- `log_event` (repository.py lines 587-593): append one entry; `sent_at`
is filled by the column default clock. -/
def log_event (log : List AlertLogEntry) (track_id : Int)
    (event_type event_hash : String) (now : ℚ) : List AlertLogEntry :=
  log ++ [⟨track_id, event_type, event_hash, now⟩]

/-! ### Worker: per-track cycle step (worker.py, lines 68-190) -/

/-- `SnapshotModel` row added per successful check (worker.py lines
151-161). -/
structure SnapshotRow where
  track_id : Int
  price_current : Option ℚ
  rating_current : Option ℚ
  reviews_current : Option Int
  in_stock : Bool
  qty_current : Option Int
  sizes : List String
deriving DecidableEq

/-- Result of the caught-exception branch (worker.py lines 171-190). -/
structure FailureStepResult where
  track : Track
  pause_notices_attempted : Nat
deriving DecidableEq

/-- The error branch of `run_cycle` (worker.py lines 171-190), run on one
caught per-track exception: increment the consecutive error count
(`(t.error_count or 0) + 1`; `or 0` is the identity on this non-nullable
integer column), and if the count has reached `ERROR_LIMIT` while the track
is still active, deactivate it and attempt one pause notification.
`send_ok` is whether that delivery succeeds; a failure is caught and only
logged (lines 187-190), so the resulting state does not depend on it. -/
def track_failure_step (t : Track) (send_ok : Bool) : FailureStepResult :=
  let error_count := t.error_count + 1
  if ERROR_LIMIT ≤ error_count ∧ t.is_active then
    { track := { t with error_count := error_count, is_active := false }
      pause_notices_attempted := 1 }
  else
    { track := { t with error_count := error_count }
      pause_notices_attempted := 0 }

/-- The post-notification mutations of a successful check (worker.py lines
151-169): record a snapshot row, refresh every `last_*` field, stamp
`last_checked_at`, and reset the error count to zero. -/
def track_success_step (t : Track) (snap : WbProductSnapshot) (now : ℚ) :
    Track × SnapshotRow :=
  ({ t with
      last_price := snap.price
      last_rating := snap.rating
      last_reviews := snap.reviews
      last_in_stock := some snap.in_stock
      last_qty := snap.total_qty
      last_sizes := some snap.sizes
      last_checked_at := some now
      error_count := 0 },
   ⟨t.id, snap.price, snap.rating, snap.reviews, snap.in_stock, snap.total_qty,
    snap.sizes⟩)

/-- The dedup-and-notify loop (worker.py lines 139-149), threading the alert
log (uncommitted `log_event` inserts are visible to the following
`is_duplicate_event` queries through the same session) and collecting the
sent message texts.  `dedup_now` is the clock read inside
`is_duplicate_event`; `now` stamps `last_notified_at` and the new log rows. -/
def notify_events_loop (t : Track) (now dedup_now : ℚ) :
    List WbEvent → List AlertLogEntry → List String →
    Track × List AlertLogEntry × List String
  | [], log, sent => (t, log, sent)
  | ev :: rest, log, sent =>
    let rendered := render_event ev
    let h := hash_event t.id "event" rendered
    if is_duplicate_event log t.id h dedup_now then
      notify_events_loop t now dedup_now rest log sent
    else
      let log := log_event log t.id "event" h now
      let msg := "🔔 <b>" ++ t.title ++ "</b>\n" ++ rendered ++ "\n" ++ t.url
      notify_events_loop { t with last_notified_at := some now } now dedup_now rest log
        (sent ++ [msg])

/-- Behaviour of the injected snapshot fetch (and of everything else inside
the per-track `try`) for one track in one cycle. -/
inductive FetchOutcome where
  | raised
  | notFound
  | found (snap : WbProductSnapshot)

/-- Everything one track's processing changes or emits in one cycle. -/
structure TrackCycleOutcome where
  track : Track
  snapshot_rows : List SnapshotRow
  new_log_entries : List AlertLogEntry
  sent_messages : List String
  pause_notices_attempted : Nat

/-- One track's processing inside `run_cycle` (worker.py lines 68-190).
`FetchOutcome.notFound` is `fetch_product` returning a falsy snapshot (line
74: `continue`); `FetchOutcome.raised` summarises an exception raised
anywhere inside the `try` block (the nested transaction of the failed track
is rolled back before the error branch runs). -/
def process_track (t : Track) (outcome : FetchOutcome) (log : List AlertLogEntry)
    (now dedup_now : ℚ) (send_ok : Bool) : TrackCycleOutcome :=
  match outcome with
  | .notFound => ⟨t, [], [], [], 0⟩
  | .raised =>
    let r := track_failure_step t send_ok
    ⟨r.track, [], [], [], r.pause_notices_attempted⟩
  | .found snap =>
    let events := detect_events t snap
    let (t', log', sent) := notify_events_loop t now dedup_now events log []
    let (t'', row) := track_success_step t' snap now
    ⟨t'', [row], log'.drop log.length, sent, 0⟩

/-! ### Helper lemmas -/

theorem ratTrunc_eq_floor {q : ℚ} (h : 0 ≤ q) : ratTrunc q = ⌊q⌋ := by
  simp [ratTrunc, h]

theorem drop_ratio_nonneg {o n : ℚ} (ho : 0 < o) (hn : n < o) :
    (0 : ℚ) ≤ (o - n) / o * 100 := by
  have h1 : (0 : ℚ) < o - n := sub_pos.2 hn
  have h2 : (0 : ℚ) ≤ (o - n) / o := div_nonneg h1.le ho.le
  nlinarith

theorem price_drop_percent_eq {o n : ℚ} (ho : 0 < o) (hn : n < o) :
    price_drop_percent (some o) (some n) = ⌊(o - n) / o * 100⌋ := by
  simp only [price_drop_percent]
  rw [if_neg, ratTrunc_eq_floor (drop_ratio_nonneg ho hn)]
  push_neg
  exact ⟨ho, hn⟩

theorem price_drop_percent_nonneg (old new : Option ℚ) :
    0 ≤ price_drop_percent old new := by
  unfold price_drop_percent
  match old, new with
  | none, _ => simp
  | some o, none => simp
  | some o, some n =>
    simp only
    split
    · exact le_refl 0
    · rename_i hguard
      push_neg at hguard
      have hq : (0 : ℚ) ≤ (o - n) / o * 100 := drop_ratio_nonneg hguard.1 hguard.2
      rw [ratTrunc_eq_floor hq]
      exact Int.floor_nonneg.mpr hq

theorem price_drop_percent_pos {old new : Option ℚ}
    (h : 0 < price_drop_percent old new) :
    ∃ o n, old = some o ∧ new = some n ∧ 0 < o ∧ n < o := by
  unfold price_drop_percent at h
  match old, new with
  | none, _ => simp at h
  | some o, none => simp at h
  | some o, some n =>
    simp only at h
    split at h
    · omega
    · rename_i hguard
      push_neg at hguard
      exact ⟨o, n, rfl, rfl, hguard.1, hguard.2⟩

theorem price_drop_not_mem_price_target {p : Int} {o n : Option ℚ}
    (t : Track) (snap : WbProductSnapshot) :
    WbEvent.price_drop p o n ∉ price_target_events t snap := by
  unfold price_target_events
  repeat' split
  all_goals simp

theorem price_drop_not_mem_in_stock {p : Int} {o n : Option ℚ}
    (t : Track) (snap : WbProductSnapshot) :
    WbEvent.price_drop p o n ∉ in_stock_events t snap := by
  unfold in_stock_events
  split <;> simp

theorem price_drop_not_mem_qty {p : Int} {o n : Option ℚ}
    (t : Track) (snap : WbProductSnapshot) :
    WbEvent.price_drop p o n ∉ qty_events t snap := by
  unfold qty_events
  repeat' split
  all_goals simp

theorem price_drop_not_mem_sizes {p : Int} {o n : Option ℚ}
    (t : Track) (snap : WbProductSnapshot) :
    WbEvent.price_drop p o n ∉ sizes_events t snap := by
  unfold sizes_events
  repeat' split
  all_goals simp

theorem mem_price_drop_events (t : Track) (snap : WbProductSnapshot) :
    (∃ percent old new, WbEvent.price_drop percent old new ∈ price_drop_events t snap) ↔
      ∃ d, t.target_drop_percent = some d ∧ d ≠ 0 ∧
        d ≤ price_drop_percent t.last_price snap.price := by
  unfold price_drop_events
  constructor
  · rintro ⟨percent, old, new, hmem⟩
    rcases htd : t.target_drop_percent with _ | d
    · simp [htd] at hmem
    · refine ⟨d, rfl, ?_⟩
      simp only [htd] at hmem
      by_contra hcon
      rw [if_neg (by tauto)] at hmem
      simp at hmem
  · rintro ⟨d, htd, hne, hle⟩
    refine ⟨price_drop_percent t.last_price snap.price, t.last_price, snap.price, ?_⟩
    simp [htd, if_pos (And.intro hne hle)]

/-- Characterisation of when a price-drop event appears in the detection
output: exactly when the drop target is set and nonzero (Python integer
truthiness) and the computed drop percent reaches it. -/
theorem price_drop_mem_detect_events (t : Track) (snap : WbProductSnapshot) :
    (∃ percent old new, WbEvent.price_drop percent old new ∈ detect_events t snap) ↔
      ∃ d, t.target_drop_percent = some d ∧ d ≠ 0 ∧
        d ≤ price_drop_percent t.last_price snap.price := by
  rw [← mem_price_drop_events]
  unfold detect_events
  constructor
  · rintro ⟨percent, old, new, hmem⟩
    simp only [List.mem_append] at hmem
    rcases hmem with ((((h | h) | h) | h) | h)
    · exact absurd h (price_drop_not_mem_price_target t snap)
    · exact ⟨percent, old, new, h⟩
    · exact absurd h (price_drop_not_mem_in_stock t snap)
    · exact absurd h (price_drop_not_mem_qty t snap)
    · exact absurd h (price_drop_not_mem_sizes t snap)
  · rintro ⟨percent, old, new, h⟩
    exact ⟨percent, old, new, by simp [List.mem_append, h]⟩

/-- Membership characterisation of the due-track selection (shared helper). -/
theorem mem_due_tracks_iff (tracks : List Track) (now : ℚ) (t : Track) :
    t ∈ due_tracks_python_safe tracks now ↔
      t ∈ tracks ∧ t.is_active = true ∧ t.is_deleted = false ∧
        (t.last_checked_at = none ∨
          ∃ last_checked, t.last_checked_at = some last_checked ∧
            (t.check_interval_min : ℚ) ≤ now - last_checked) := by
  unfold due_tracks_python_safe
  simp only [List.mem_filter, Bool.and_eq_true, Bool.not_eq_true']
  cases h : t.last_checked_at with
  | none => simp [h]
  | some last_checked =>
    simp only [h, decide_eq_true_eq, Option.some.injEq, reduceCtorEq, false_or]
    constructor
    · rintro ⟨⟨hmem, hact, hdel⟩, hle⟩
      exact ⟨hmem, hact, hdel, last_checked, rfl, by linarith⟩
    · rintro ⟨hmem, hact, hdel, lc, hlc, hle⟩
      cases hlc
      exact ⟨⟨hmem, hact, hdel⟩, by linarith⟩

/-- A neutral track fixture used by the concrete witnesses below. -/
def baseTrack : Track :=
  { id := 1, user_tg_id := 10, user_plan := "free", wb_item_id := 100,
    url := "https://www.wildberries.ru/catalog/100/detail.aspx", title := "item",
    target_price := none, target_drop_percent := none, watch_stock := false,
    watch_qty := false, watch_sizes := [], is_active := true,
    is_deleted := false, check_interval_min := 60, error_count := 0,
    last_price := none, last_rating := none, last_reviews := none,
    last_in_stock := none, last_qty := none, last_sizes := none,
    last_checked_at := none, last_notified_at := none }

/-- A neutral snapshot fixture used by the concrete witnesses below. -/
def baseSnap : WbProductSnapshot :=
  { wb_item_id := 100, title := "item", price := none, rating := none,
    reviews := none, in_stock := false, total_qty := none, sizes := [] }

/-! ### C9 — drop-percent formula -/

/-- C9: the computed price-drop percent equals `⌊(old-new)/old*100⌋` — the
`int()` truncation coincides with floor on these nonnegative operands —
whenever both prices are known, `old > 0` and `new < old`; it equals `0` in
every other case; it is never negative; and a new price at or above the old
one yields `0`. -/
theorem price_drop_percent_formula (old new : Option ℚ) :
    price_drop_percent old new =
      (match old, new with
       | some o, some n => if 0 < o ∧ n < o then ⌊(o - n) / o * 100⌋ else 0
       | _, _ => 0) ∧
    0 ≤ price_drop_percent old new ∧
    (∀ o n, old = some o → new = some n → o ≤ n → price_drop_percent old new = 0) := by
  refine ⟨?_, price_drop_percent_nonneg old new, ?_⟩
  · match old, new with
    | none, _ => rfl
    | some o, none => rfl
    | some o, some n =>
      simp only
      by_cases h : 0 < o ∧ n < o
      · rw [if_pos h, price_drop_percent_eq h.1 h.2]
      · rw [if_neg h]
        unfold price_drop_percent
        simp only
        rw [if_pos]
        rcases le_or_lt o 0 with ho | ho
        · exact Or.inl ho
        · exact Or.inr (by push_neg at h; exact h ho)
  · intro o n ho hn hle
    subst ho hn
    unfold price_drop_percent
    simp only
    rw [if_pos (Or.inr hle)]

/-- Witness for `price_drop_percent_formula`: the spec's end-to-end example
2000 → 1750 yields 12, and an unchanged price yields 0. -/
theorem price_drop_percent_formula_witness :
    price_drop_percent (some 2000) (some 1750) = 12 ∧
      price_drop_percent (some 100) (some 100) = 0 := by
  constructor
  · rw [(price_drop_percent_formula (some 2000) (some 1750)).1]
    norm_num
  · exact (price_drop_percent_formula (some 100) (some 100)).2.2 100 100 rfl rfl le_rfl

/-! ### C1 — price-drop emission (corrected) -/

/-- The counterexample track for C1: a negative drop target with an unchanged
known price. -/
def negDropTrack : Track :=
  { baseTrack with target_drop_percent := some (-1), last_price := some 100 }

/-- The counterexample snapshot for C1: price unchanged at 100. -/
def negDropSnap : WbProductSnapshot :=
  { baseSnap with price := some 100 }

/-- C1 counterexample: with `target_drop_percent = -1` (representable in the
integer column) and a new price equal to the previous known price, the cycle
emits a price-drop event — `if t.target_drop_percent and drop >=
t.target_drop_percent` is entered because `-1` is truthy and `0 ≥ -1` —
whereas the claim requires no event when the target is zero or negative or
the price did not fall. -/
theorem price_drop_emission_counterexample :
    negDropTrack.target_drop_percent = some (-1) ∧
    negDropSnap.price = negDropTrack.last_price ∧
    (∃ percent old new,
      WbEvent.price_drop percent old new ∈ detect_events negDropTrack negDropSnap) := by
  refine ⟨rfl, rfl, 0, some 100, some 100, ?_⟩
  decide

/-- C1 amended: restricted to tracks whose drop target is unset or
nonnegative (the settings handler only stores targets clamped to 1..99, or
null), the claimed equivalence holds: a price-drop event is emitted iff the
target is set and positive, both prices are known, the new price is strictly
below the previous one, and `⌊(old-new)/old*100⌋` reaches the target.  In
particular a zero target, an unset previous price, or a non-falling price
emits nothing. -/
theorem price_drop_emission_amended (t : Track) (snap : WbProductSnapshot)
    (hnn : ∀ d, t.target_drop_percent = some d → 0 ≤ d) :
    (∃ percent old new, WbEvent.price_drop percent old new ∈ detect_events t snap) ↔
      ∃ d o n, t.target_drop_percent = some d ∧ 0 < d ∧
        t.last_price = some o ∧ snap.price = some n ∧ n < o ∧
        d ≤ ⌊(o - n) / o * 100⌋ := by
  rw [price_drop_mem_detect_events]
  constructor
  · rintro ⟨d, htd, hne, hle⟩
    have hd0 : 0 < d := lt_of_le_of_ne (hnn d htd) (Ne.symm hne)
    have hpos : 0 < price_drop_percent t.last_price snap.price :=
      lt_of_lt_of_le hd0 hle
    obtain ⟨o, n, ho, hn, hop, hno⟩ := price_drop_percent_pos hpos
    refine ⟨d, o, n, htd, hd0, ho, hn, hno, ?_⟩
    rw [ho, hn, price_drop_percent_eq hop hno] at hle
    exact hle
  · rintro ⟨d, o, n, htd, hd0, ho, hn, hno, hle⟩
    rcases le_or_lt o 0 with hneg | hop
    · exfalso
      have hq : (o - n) / o * 100 ≤ 0 := by
        rcases lt_or_eq_of_le hneg with hlt | heq
        · have hon : 0 < o - n := sub_pos.2 hno
          have : (o - n) / o < 0 := div_neg_of_pos_of_neg hon hlt
          nlinarith
        · rw [heq]
          simp
      have : ⌊(o - n) / o * 100⌋ ≤ 0 := by
        calc ⌊(o - n) / o * 100⌋ ≤ ⌊(0 : ℚ)⌋ := Int.floor_le_floor hq
        _ = 0 := by simp
      omega
    · refine ⟨d, htd, hd0.ne', ?_⟩
      rw [ho, hn, price_drop_percent_eq hop hno]
      exact hle

/-- A track achieving a 12% drop against a 10% target, for the C1 witness. -/
def dropWitnessTrack : Track :=
  { baseTrack with target_drop_percent := some 10, last_price := some 2000 }

/-- The snapshot achieving the 12% drop, for the C1 witness. -/
def dropWitnessSnap : WbProductSnapshot :=
  { baseSnap with price := some 1750 }

/-- Witness for `price_drop_emission_amended`: target 10, price 2000 → 1750
(drop 12%) emits a price-drop event. -/
theorem price_drop_emission_amended_witness :
    ∃ percent old new, WbEvent.price_drop percent old new ∈
      detect_events dropWitnessTrack dropWitnessSnap := by
  refine (price_drop_emission_amended _ _ ?_).mpr
    ⟨10, 2000, 1750, rfl, by norm_num, rfl, rfl, by norm_num, ?_⟩
  · intro d hd
    have h10 : some (10 : Int) = some d := hd
    injection h10 with h10
    omega
  · rw [Int.le_floor]
    norm_num

/-! ### C2 — due-track selection -/

/-- C2: for every stored track list and time, the scheduler returns exactly
the active, non-deleted tracks whose `last_checked_at` is unset or satisfies
`now - last_checked_at ≥ check_interval_min` (the interval read from the
track row at due-check time); the boundary case of equality is due, and an
inactive (paused) or deleted track is never returned. -/
theorem due_tracks_selection (tracks : List Track) (now : ℚ) (t : Track) :
    t ∈ due_tracks_python_safe tracks now ↔
      t ∈ tracks ∧ t.is_active = true ∧ t.is_deleted = false ∧
        (t.last_checked_at = none ∨
          ∃ last_checked, t.last_checked_at = some last_checked ∧
            (t.check_interval_min : ℚ) ≤ now - last_checked) :=
  mem_due_tracks_iff tracks now t

/-! ### C7 — failure backoff -/

/-- C7: each caught per-track exception increments the consecutive error
count by exactly one; the resulting state does not depend on whether the
pause-notification delivery succeeds (its failure is swallowed); when the
incremented count reaches `ERROR_LIMIT = 5` while the track is still active,
the active flag becomes false and exactly one pause notification is
attempted; otherwise the active flag is unchanged and no pause notification
is attempted; and a successful check resets the error count to zero. -/
theorem failure_backoff_spec (t : Track) (send_ok : Bool) :
    (track_failure_step t send_ok).track.error_count = t.error_count + 1 ∧
    track_failure_step t send_ok = track_failure_step t (!send_ok) ∧
    (ERROR_LIMIT ≤ t.error_count + 1 → t.is_active = true →
      (track_failure_step t send_ok).track.is_active = false ∧
      (track_failure_step t send_ok).pause_notices_attempted = 1) ∧
    (¬(ERROR_LIMIT ≤ t.error_count + 1 ∧ t.is_active = true) →
      (track_failure_step t send_ok).track.is_active = t.is_active ∧
      (track_failure_step t send_ok).pause_notices_attempted = 0) ∧
    (∀ snap now, (track_success_step t snap now).1.error_count = 0) := by
  have hfail : ∀ b, track_failure_step t b =
      if ERROR_LIMIT ≤ t.error_count + 1 ∧ t.is_active = true then
        ⟨{ t with error_count := t.error_count + 1, is_active := false }, 1⟩
      else ⟨{ t with error_count := t.error_count + 1 }, 0⟩ := by
    intro b
    rfl
  refine ⟨?_, ?_, ?_, ?_, fun snap now => rfl⟩
  · rw [hfail]
    split_ifs <;> rfl
  · rw [hfail, hfail]
  · intro h1 h2
    rw [hfail, if_pos ⟨h1, h2⟩]
    exact ⟨rfl, rfl⟩
  · intro hc
    rw [hfail, if_neg hc]
    exact ⟨rfl, rfl⟩

/-- A track four failures in, for the C7 witness. -/
def fourFailTrack : Track :=
  { baseTrack with error_count := 4 }

/-- Witness for `failure_backoff_spec`: a 5th failure on an active track
pauses it with one notification attempted. -/
theorem failure_backoff_spec_witness :
    (track_failure_step fourFailTrack true).track.is_active = false ∧
    (track_failure_step fourFailTrack true).pause_notices_attempted = 1 :=
  (failure_backoff_spec fourFailTrack true).2.2.1 (by decide) (by decide)

/-! ### C8 — event deduplication -/

/-- C8: `is_duplicate_event` is true exactly when some log entry matches the
track id and hash with `sent_at` inside the preceding 24-hour window; it is
false when every entry for that track has a different hash and false once
the window has elapsed; and the content hash is a deterministic function of
the track id, the event kind and the rendered payload. -/
theorem is_duplicate_event_spec (log : List AlertLogEntry) (track_id : Int)
    (event_hash : String) (now : ℚ) :
    (is_duplicate_event log track_id event_hash now = true ↔
      ∃ e ∈ log, e.track_id = track_id ∧ e.event_hash = event_hash ∧
        now - 60 * 24 ≤ e.sent_at) ∧
    ((∀ e ∈ log, e.track_id = track_id → e.event_hash ≠ event_hash) →
      is_duplicate_event log track_id event_hash now = false) ∧
    ((∀ e ∈ log, e.sent_at < now - 60 * 24) →
      is_duplicate_event log track_id event_hash now = false) ∧
    (∀ id₁ id₂ kind₁ kind₂ payload₁ payload₂, id₁ = id₂ → kind₁ = kind₂ →
      payload₁ = payload₂ → hash_event id₁ kind₁ payload₁ = hash_event id₂ kind₂ payload₂) := by
  have hiff : is_duplicate_event log track_id event_hash now = true ↔
      ∃ e ∈ log, e.track_id = track_id ∧ e.event_hash = event_hash ∧
        now - 60 * 24 ≤ e.sent_at := by
    unfold is_duplicate_event
    simp [List.any_eq_true, and_assoc]
  refine ⟨hiff, ?_, ?_, ?_⟩
  · intro hno
    rw [Bool.eq_false_iff]
    intro htrue
    obtain ⟨e, hmem, hid, hhash, _⟩ := hiff.mp htrue
    exact hno e hmem hid hhash
  · intro hold
    rw [Bool.eq_false_iff]
    intro htrue
    obtain ⟨e, hmem, _, _, hin⟩ := hiff.mp htrue
    exact absurd hin (not_le.2 (hold e hmem))
  · intro id₁ id₂ kind₁ kind₂ payload₁ payload₂ h1 h2 h3
    rw [h1, h2, h3]

/-- Witness for `is_duplicate_event_spec`: a matching in-window entry is a
duplicate; after the window elapses the same entry no longer is; and
`hash_event` is reproducible on equal inputs. -/
theorem is_duplicate_event_spec_witness :
    is_duplicate_event [⟨1, "event", "deadbeef", 0⟩] 1 "deadbeef" 60 = true ∧
    is_duplicate_event [⟨1, "event", "deadbeef", 0⟩] 1 "deadbeef" 2000 = false ∧
    hash_event 1 "event" "payload" = hash_event 1 "event" "payload" := by
  refine ⟨?_, ?_, ?_⟩
  · exact (is_duplicate_event_spec [⟨1, "event", "deadbeef", 0⟩] 1 "deadbeef" 60).1.mpr
      ⟨⟨1, "event", "deadbeef", 0⟩, by simp, rfl, rfl, by norm_num⟩
  · exact (is_duplicate_event_spec [⟨1, "event", "deadbeef", 0⟩] 1 "deadbeef" 2000).2.2.1
      (by intro e hmem; simp at hmem; subst hmem; norm_num)
  · exact (is_duplicate_event_spec [] 1 "x" 0).2.2.2 1 1 "event" "event" "payload" "payload"
      rfl rfl rfl

/-! ### C10 — frame of a not-found fetch -/

/-- C10: when the snapshot fetch reports not-found, the cycle changes nothing
for the track: the row is returned unchanged (all last-known fields,
`last_checked_at`, and the error count included), no snapshot row is added,
no log entry is written, no message is sent, no pause notice is attempted —
and a track due at `now` is still due at any later time. -/
theorem not_found_frame (t : Track) (log : List AlertLogEntry)
    (now dedup_now : ℚ) (send_ok : Bool) :
    process_track t .notFound log now dedup_now send_ok = ⟨t, [], [], [], 0⟩ ∧
    (∀ tracks now', t ∈ due_tracks_python_safe tracks now → now ≤ now' →
      t ∈ due_tracks_python_safe tracks now') := by
  refine ⟨rfl, ?_⟩
  intro tracks now' hdue hle
  rw [mem_due_tracks_iff] at hdue ⊢
  obtain ⟨hmem, hact, hdel, hdue'⟩ := hdue
  refine ⟨hmem, hact, hdel, ?_⟩
  rcases hdue' with h | ⟨lc, hlc, hint⟩
  · exact Or.inl h
  · exact Or.inr ⟨lc, hlc, by linarith⟩

/-- Witness for `not_found_frame`: a concrete never-checked due track stays
due and completely unchanged. -/
theorem not_found_frame_witness :
    process_track baseTrack .notFound [] 0 0 true = ⟨baseTrack, [], [], [], 0⟩ ∧
    baseTrack ∈ due_tracks_python_safe [baseTrack] 5 :=
  ⟨(not_found_frame baseTrack [] 0 0 true).1,
   (not_found_frame baseTrack [] 0 0 true).2 [baseTrack] 5
     ((mem_due_tracks_iff [baseTrack] 0 baseTrack).mpr
       ⟨by simp, rfl, rfl, Or.inl rfl⟩) (by norm_num)⟩

/-! ### Candidate gate lemmas (shared by the matching-engine claims) -/

theorem candidate_gates_some {ctx : BaseCtx} {cfg : PassCfg} {nm_id : Int}
    {price : ℚ} {product : JVal} {item : WbSimilarProduct}
    (h : candidate_gates ctx cfg nm_id price product = some item) :
    item.wb_item_id = nm_id ∧ item.price = price := by
  unfold candidate_gates at h
  dsimp only at h
  split_ifs at h
  all_goals try simp only [reduceCtorEq] at h
  all_goals simp only [Option.some.injEq] at h
  all_goals exact ⟨by rw [← h], by rw [← h]⟩

/-- `cand_ok max exclude x`: the per-item facts every accepted candidate
satisfies. -/
def cand_ok (max_price : ℚ) (exclude : Int) (x : WbSimilarProduct) : Prop :=
  x.price < max_price ∧ x.wb_item_id ≠ exclude

theorem eval_candidate_ok_some {ctx : BaseCtx} {cfg : PassCfg} {seen : List Int}
    {product : JVal} {item : WbSimilarProduct}
    (h : eval_candidate ctx cfg seen product = .ok (some item)) :
    cand_ok ctx.max_price ctx.exclude_wb_item_id item ∧ item.wb_item_id ∉ seen := by
  unfold eval_candidate at h
  split at h
  · simp at h
  · split_ifs at h with hseen hsubj
    · simp at h
    · simp at h
    · split at h
      · simp at h
      · simp at h
      · split_ifs at h with hmax
        · simp at h
        · simp only [Except.ok.injEq] at h
          obtain ⟨hid, hprice⟩ := candidate_gates_some h
          push_neg at hseen
          refine ⟨⟨hprice ▸ not_le.1 hmax, hid ▸ hseen.2⟩, hid ▸ hseen.1⟩

theorem eval_candidate_price_reject {ctx : BaseCtx} {seen : List Int}
    {product : JVal} (cfg : PassCfg)
    (h : extract_price product = .ok none ∨
      ∃ p, extract_price product = .ok (some p) ∧ ctx.max_price ≤ p) :
    eval_candidate ctx cfg seen product = .ok none := by
  unfold eval_candidate
  split
  · rfl
  · split_ifs with hseen hsubj
    · rfl
    · rfl
    · rcases h with hnone | ⟨p, hp, hge⟩
      · rw [hnone]
      · rw [hp]
        simp only
        rw [if_pos hge]

/-! ### C3 — staged relaxation thresholds (corrected) -/

/-- C3 counterexample: with caller threshold 10 (inside the clamp range of
`_normalize_match_percent`), pass 1 runs at 10% but pass 2 at
`max(20, 10 - 15) = 20%` — strictly higher than pass 1's threshold, not
lower or equal as claimed. -/
theorem relaxation_threshold_counterexample :
    normalize_match_percent (some 10) = 10 ∧
    relaxed_match_percent (normalize_match_percent (some 10)) = 20 ∧
    ¬relaxed_match_percent (normalize_match_percent (some 10)) ≤
        normalize_match_percent (some 10) := by
  refine ⟨rfl, rfl, by decide⟩

/-- C3 amended: if pass 1 yields zero candidates, pass 2 still runs
automatically (literal in the control flow of `search_similar_all_sources`)
with threshold `max(20, pass-1 threshold − 15)`; that value is lower than or
equal to pass 1's exactly when the clamped pass-1 threshold is at least 20
(for clamped caller thresholds of 10–19 it is strictly higher); and the
price gate — candidate price known and strictly below `max_price` — is the
same predicate in every pass: a candidate failing it is rejected under every
pass configuration, and a candidate accepted under any pass configuration
has a known price strictly below `max_price`. -/
theorem staged_relaxation_amended (threshold : Option Int) (ctx : BaseCtx)
    (cfg cfg' : PassCfg) (seen : List Int) (product : JVal) :
    relaxed_match_percent (normalize_match_percent threshold) =
      max 20 (normalize_match_percent threshold - 15) ∧
    (relaxed_match_percent (normalize_match_percent threshold) ≤
        normalize_match_percent threshold ↔
      20 ≤ normalize_match_percent threshold) ∧
    ((extract_price product = .ok none ∨
        ∃ p, extract_price product = .ok (some p) ∧ ctx.max_price ≤ p) →
      eval_candidate ctx cfg seen product = eval_candidate ctx cfg' seen product ∧
        eval_candidate ctx cfg seen product = .ok none) ∧
    (∀ item, eval_candidate ctx cfg seen product = .ok (some item) →
      item.price < ctx.max_price) := by
  refine ⟨rfl, ?_, ?_, ?_⟩
  · unfold relaxed_match_percent
    omega
  · intro h
    rw [eval_candidate_price_reject cfg h, eval_candidate_price_reject cfg' h]
    exact ⟨rfl, rfl⟩
  · intro item h
    exact (eval_candidate_ok_some h).1.1

/-- Witness for `staged_relaxation_amended`: the default threshold (None →
50) gives a relaxed threshold of 35 ≤ 50, and a price-gate-failing product
(no price fields at all) is rejected under two different pass
configurations. -/
theorem staged_relaxation_amended_witness :
    relaxed_match_percent (normalize_match_percent none) ≤
      normalize_match_percent none ∧
    eval_candidate ⟨"t", none, none, ["token"], [], [], [], [], none, none, 100, 1⟩
        ⟨50, true, 1, 1, true⟩ [] (.obj [("id", .int 2)]) =
      eval_candidate ⟨"t", none, none, ["token"], [], [], [], [], none, none, 100, 1⟩
        ⟨20, false, 0, 0, false⟩ [] (.obj [("id", .int 2)]) := by
  constructor
  · exact (staged_relaxation_amended none
      ⟨"t", none, none, ["token"], [], [], [], [], none, none, 100, 1⟩
      ⟨50, true, 1, 1, true⟩ ⟨20, false, 0, 0, false⟩ [] (.obj [("id", .int 2)])).2.1.mpr
      (by decide)
  · exact ((staged_relaxation_amended none
      ⟨"t", none, none, ["token"], [], [], [], [], none, none, 100, 1⟩
      ⟨50, true, 1, 1, true⟩ ⟨20, false, 0, 0, false⟩ [] (.obj [("id", .int 2)])).2.2.1
      (Or.inl rfl)).1

/-! ### C4 — snapshot-parse robustness (code bug) -/

/-- The C4 failing payload: a structurally plausible product whose single
stock entry carries the non-numeric string `"abc"` as `qty`. -/
def badQtyPayload : JVal :=
  .obj [("products", .arr [
    .obj [("sizes", .arr [
      .obj [("name", .str "M"),
            ("stocks", .arr [.obj [("qty", .str "abc")]])]])]])]

/-- A payload that is not a dict at top level (a bare JSON list). -/
def listPayload : JVal :=
  .arr [.int 1]

/-- C4: the claim (and spec §6) requires `_fetch_and_cache` parsing never to
raise on malformed payloads, but `int(stock.get("qty", 0))` raises
`ValueError` on a non-numeric string `qty` (the module's own `_parse_int`,
written for exactly this, is not used here), and `data.get("products")`
raises `AttributeError` when the decoded body is not a dict. -/
theorem fetch_parse_raises :
    fetch_and_cache_parse 100 200 badQtyPayload = .error .valueErr ∧
    fetch_and_cache_parse 100 200 listPayload = .error .typeErr :=
  ⟨rfl, rfl⟩

/-! ### C6 — matching-engine failure modes (code bug) -/

/-- The oracle on which every HTTP request fails. -/
def failingOracle : HttpOracle :=
  { searchResp := fun _ _ => none
    menuResp := none
    catalogResp := fun _ _ _ _ => none }

/-- The C6 failing search response: one product whose `salePriceU` is the
JSON boolean `true`.  Python `bool` is a subclass of `int`, so it passes
`isinstance(sale_price, (int, float))` and reaches
`Decimal(str(True))`, which raises `decimal.InvalidOperation`. -/
def boolPricePayload : JVal :=
  .obj [("products", .arr [.obj [("id", .int 111222333), ("salePriceU", .bool true)]])]

/-- The oracle serving the failing payload on the first search page and
failing every other request. -/
def boolPriceOracle : HttpOracle :=
  { searchResp := fun tmpl page =>
      if tmpl = 0 ∧ page = 1 then some boolPricePayload else none
    menuResp := none
    catalogResp := fun _ _ _ _ => none }

unseal List.mergeSort List.merge scanModelTokens

/-- C6: with every source failing at the HTTP level the engine indeed
returns an empty list without raising; but the no-raise guarantee does not
survive malformed JSON: a search-endpoint product whose `salePriceU` is the
boolean `true` makes `_extract_price` raise `decimal.InvalidOperation`
(`Decimal(str(True))`), which propagates uncaught through
`_search_similar_with_search` and `_search_similar_all_sources` to the
caller of `search_similar_cheaper`. -/
theorem find_cheaper_failure_modes :
    search_similar_cheaper failingOracle ⟨none, false⟩ "apple iphone cable" 1000 555
      none none none none 5 = .ok [] ∧
    search_similar_cheaper boolPriceOracle ⟨none, false⟩ "apple iphone cable" 1000 555
      none none none none 5 = .error .invalidOperation :=
  ⟨rfl, rfl⟩

/-! ### C5 — output discipline of the matching engine -/

theorem search_products_loop_ok {ctx : BaseCtx} {cfg : PassCfg} :
    ∀ {products : List JVal} {seen similar seen' similar'},
      search_products_loop ctx cfg products seen similar = .ok (seen', similar') →
      (∀ x ∈ similar, cand_ok ctx.max_price ctx.exclude_wb_item_id x) →
      ∀ x ∈ similar', cand_ok ctx.max_price ctx.exclude_wb_item_id x := by
  intro products
  induction products with
  | nil =>
    intro seen similar seen' similar' h hP
    unfold search_products_loop at h
    simp only [Except.ok.injEq, Prod.mk.injEq] at h
    exact h.2 ▸ hP
  | cons product rest ih =>
    intro seen similar seen' similar' h hP
    unfold search_products_loop at h
    split_ifs at h with hdict
    · exact ih h hP
    · split at h
      · simp at h
      · exact ih h hP
      · rename_i item heq
        refine ih h ?_
        intro x hx
        rcases List.mem_append.1 hx with hmem | hmem
        · exact hP x hmem
        · rcases List.mem_singleton.1 hmem with rfl
          exact (eval_candidate_ok_some heq).1

theorem search_pages_loop_ok {oracle : HttpOracle} {ctx : BaseCtx} {cfg : PassCfg}
    {limit tmpl : Nat} :
    ∀ {pages : List Nat} {seen similar seen' similar'},
      search_pages_loop oracle ctx cfg limit tmpl pages seen similar =
        .ok (seen', similar') →
      (∀ x ∈ similar, cand_ok ctx.max_price ctx.exclude_wb_item_id x) →
      ∀ x ∈ similar', cand_ok ctx.max_price ctx.exclude_wb_item_id x := by
  intro pages
  induction pages with
  | nil =>
    intro seen similar seen' similar' h hP
    unfold search_pages_loop at h
    simp only [Except.ok.injEq, Prod.mk.injEq] at h
    exact h.2 ▸ hP
  | cons page rest ih =>
    intro seen similar seen' similar' h hP
    unfold search_pages_loop at h
    split at h
    · exact ih h hP
    · split_ifs at h with hdict
      · exact ih h hP
      · split at h
        · simp at h
        · rename_i seen'' similar'' heq
          have hP' := search_products_loop_ok heq hP
          split_ifs at h with hlim
          · simp only [Except.ok.injEq, Prod.mk.injEq] at h
            exact h.2 ▸ hP'
          · exact ih h hP'

theorem search_templates_loop_ok {oracle : HttpOracle} {ctx : BaseCtx}
    {cfg : PassCfg} {limit : Nat} :
    ∀ {tmpls : List Nat} {seen similar similar'},
      search_templates_loop oracle ctx cfg limit tmpls seen similar = .ok similar' →
      (∀ x ∈ similar, cand_ok ctx.max_price ctx.exclude_wb_item_id x) →
      ∀ x ∈ similar', cand_ok ctx.max_price ctx.exclude_wb_item_id x := by
  intro tmpls
  induction tmpls with
  | nil =>
    intro seen similar similar' h hP
    unfold search_templates_loop at h
    simp only [Except.ok.injEq] at h
    exact h ▸ hP
  | cons tmpl rest ih =>
    intro seen similar similar' h hP
    unfold search_templates_loop at h
    split at h
    · simp at h
    · rename_i seen'' similar'' heq
      have hP' := search_pages_loop_ok heq hP
      split_ifs at h with hlim
      · simp only [Except.ok.injEq] at h
        exact h ▸ hP'
      · exact ih h hP'

theorem search_source_ok {oracle : HttpOracle} {ctx : BaseCtx} {cfg : PassCfg}
    {limit : Nat} {skip : List Int} {res : List WbSimilarProduct}
    (h : search_similar_with_search oracle ctx cfg limit skip = .ok res) :
    ∀ x ∈ res, cand_ok ctx.max_price ctx.exclude_wb_item_id x := by
  unfold search_similar_with_search at h
  dsimp only at h
  split_ifs at h with hq
  · simp only [Except.ok.injEq] at h
    subst h
    simp
  · split at h
    · simp at h
    · rename_i similar heq
      simp only [Except.ok.injEq] at h
      subst h
      intro x hx
      have hx1 := List.take_subset _ _ hx
      rw [List.mem_mergeSort] at hx1
      exact search_templates_loop_ok heq (by simp) x hx1

theorem catalog_products_loop_ok {ctx : BaseCtx} {cfg : PassCfg} :
    ∀ {products : List JVal} {seen cands seen' cands'},
      catalog_products_loop ctx cfg products seen cands = .ok (seen', cands') →
      (∀ x ∈ cands, cand_ok ctx.max_price ctx.exclude_wb_item_id x.2) →
      ∀ x ∈ cands', cand_ok ctx.max_price ctx.exclude_wb_item_id x.2 := by
  intro products
  induction products with
  | nil =>
    intro seen cands seen' cands' h hP
    unfold catalog_products_loop at h
    simp only [Except.ok.injEq, Prod.mk.injEq] at h
    exact h.2 ▸ hP
  | cons product rest ih =>
    intro seen cands seen' cands' h hP
    unfold catalog_products_loop at h
    split at h
    · simp at h
    · exact ih h hP
    · rename_i item heq
      dsimp only at h
      split_ifs at h with hrel
      · exact ih h hP
      · refine ih h ?_
        intro x hx
        rcases List.mem_append.1 hx with hmem | hmem
        · exact hP x hmem
        · rcases List.mem_singleton.1 hmem with rfl
          exact (eval_candidate_ok_some heq).1

theorem catalog_pages_loop_ok {oracle : HttpOracle} {ctx : BaseCtx} {cfg : PassCfg}
    {limit : Nat} {category : WbCatalogCategory} :
    ∀ {pages : List Nat} {seen cands seen' cands'},
      catalog_pages_loop oracle ctx cfg limit category pages seen cands =
        .ok (seen', cands') →
      (∀ x ∈ cands, cand_ok ctx.max_price ctx.exclude_wb_item_id x.2) →
      ∀ x ∈ cands', cand_ok ctx.max_price ctx.exclude_wb_item_id x.2 := by
  intro pages
  induction pages with
  | nil =>
    intro seen cands seen' cands' h hP
    unfold catalog_pages_loop at h
    simp only [Except.ok.injEq, Prod.mk.injEq] at h
    exact h.2 ▸ hP
  | cons page rest ih =>
    intro seen cands seen' cands' h hP
    unfold catalog_pages_loop at h
    dsimp only at h
    split_ifs at h with hempty
    · simp only [Except.ok.injEq, Prod.mk.injEq] at h
      exact h.2 ▸ hP
    · split at h
      · simp at h
      · rename_i seen'' cands'' heq
        have hP' := catalog_products_loop_ok heq hP
        split_ifs at h with hlim
        · simp only [Except.ok.injEq, Prod.mk.injEq] at h
          exact h.2 ▸ hP'
        · exact ih h hP'

theorem catalog_categories_loop_ok {oracle : HttpOracle} {ctx : BaseCtx}
    {cfg : PassCfg} {limit : Nat} :
    ∀ {cats : List WbCatalogCategory} {seen cands cands'},
      catalog_categories_loop oracle ctx cfg limit cats seen cands = .ok cands' →
      (∀ x ∈ cands, cand_ok ctx.max_price ctx.exclude_wb_item_id x.2) →
      ∀ x ∈ cands', cand_ok ctx.max_price ctx.exclude_wb_item_id x.2 := by
  intro cats
  induction cats with
  | nil =>
    intro seen cands cands' h hP
    unfold catalog_categories_loop at h
    simp only [Except.ok.injEq] at h
    exact h ▸ hP
  | cons category rest ih =>
    intro seen cands cands' h hP
    unfold catalog_categories_loop at h
    split at h
    · simp at h
    · rename_i seen'' cands'' heq
      have hP' := catalog_pages_loop_ok heq hP
      split_ifs at h with hlim
      · simp only [Except.ok.injEq] at h
        exact h ▸ hP'
      · exact ih h hP'

theorem catalog_source_ok {oracle : HttpOracle} {st : MenuCacheState}
    {ctx : BaseCtx} {cfg : PassCfg} {limit : Nat} {skip : List Int}
    {res : List WbSimilarProduct} {st' : MenuCacheState}
    (h : search_similar_with_catalog oracle st ctx cfg limit skip = (.ok res, st')) :
    ∀ x ∈ res, cand_ok ctx.max_price ctx.exclude_wb_item_id x := by
  unfold search_similar_with_catalog at h
  dsimp only at h
  split_ifs at h
  all_goals first
    | (simp only [Prod.mk.injEq, Except.ok.injEq] at h
       rw [← h.1]
       simp)
    | (split at h
       · simp at h
       · rename_i cands heq
         simp only [Prod.mk.injEq, Except.ok.injEq] at h
         rw [← h.1]
         intro x hx
         rcases List.mem_map.1 hx with ⟨pr, hpr, rfl⟩
         have hpr1 := List.take_subset _ _ hpr
         rw [List.mem_mergeSort] at hpr1
         exact catalog_categories_loop_ok heq (by simp) pr hpr1)

/-- The invariant carried through the relaxation passes: pairwise-distinct
ids, per-item price/exclusion facts, and id tracking in `seen_ids`. -/
def acc_inv (max_price : ℚ) (exclude : Int) (acc : SimilarAcc) : Prop :=
  acc.combined.Pairwise (fun a b => a.wb_item_id ≠ b.wb_item_id) ∧
  (∀ x ∈ acc.combined, cand_ok max_price exclude x) ∧
  (∀ x ∈ acc.combined, x.wb_item_id ∈ acc.seen_ids)

theorem merge_found_inv {max_price : ℚ} {exclude : Int} :
    ∀ {lst : List WbSimilarProduct} {acc : SimilarAcc},
      acc_inv max_price exclude acc →
      (∀ x ∈ lst, cand_ok max_price exclude x) →
      acc_inv max_price exclude (merge_found acc lst) := by
  intro lst
  induction lst with
  | nil =>
    intro acc hinv _
    simpa [merge_found] using hinv
  | cons item rest ih =>
    intro acc hinv hP
    unfold merge_found
    split_ifs with hmem
    · exact ih hinv (fun x hx => hP x (List.mem_cons_of_mem _ hx))
    · refine ih ?_ (fun x hx => hP x (List.mem_cons_of_mem _ hx))
      obtain ⟨hpw, hok, hsub⟩ := hinv
      refine ⟨?_, ?_, ?_⟩
      · rw [List.pairwise_append]
        refine ⟨hpw, List.pairwise_singleton _ _, ?_⟩
        intro a ha b hb
        rcases List.mem_singleton.1 hb with rfl
        intro hcontra
        exact hmem (hcontra ▸ hsub a ha)
      · intro x hx
        rcases List.mem_append.1 hx with hx | hx
        · exact hok x hx
        · rcases List.mem_singleton.1 hx with rfl
          exact hP x (List.mem_cons_self _ _)
      · intro x hx
        rcases List.mem_append.1 hx with hx | hx
        · exact List.mem_append_left _ (hsub x hx)
        · rcases List.mem_singleton.1 hx with rfl
          exact List.mem_append_right _ (List.mem_singleton_self _)

theorem collect_pass_inv {oracle : HttpOracle} {ctx : BaseCtx} {cfg : PassCfg}
    {limit : Nat} {acc : SimilarAcc} {st : MenuCacheState} {acc' : SimilarAcc}
    {st' : MenuCacheState}
    (h : collect_pass oracle ctx cfg limit acc st = .ok (acc', st'))
    (hinv : acc_inv ctx.max_price ctx.exclude_wb_item_id acc) :
    acc_inv ctx.max_price ctx.exclude_wb_item_id acc' := by
  unfold collect_pass at h
  split_ifs at h with hlim
  · simp only [Except.ok.injEq, Prod.mk.injEq] at h
    exact h.1 ▸ hinv
  · split at h
    · simp at h
    · rename_i by_search hsearch
      have hinv2 := merge_found_inv hinv (search_source_ok hsearch)
      dsimp only at h
      split_ifs at h with hlim2
      · simp only [Except.ok.injEq, Prod.mk.injEq] at h
        exact h.1 ▸ hinv2
      · split at h
        · simp at h
        · rename_i by_catalog st'' hcat
          simp only [Except.ok.injEq, Prod.mk.injEq] at h
          exact h.1 ▸ merge_found_inv hinv2 (catalog_source_ok hcat)

theorem acc_inv_nil (max_price : ℚ) (exclude : Int) :
    acc_inv max_price exclude ⟨[], []⟩ :=
  ⟨List.Pairwise.nil, by simp, by simp⟩

/-- The final sort-and-truncate step turns the pass invariant into the
claimed output discipline. -/
theorem final_output_props {max_price : ℚ} {exclude : Int}
    {combined : List WbSimilarProduct} {limit : Nat}
    (hdist : combined.Pairwise (fun a b => a.wb_item_id ≠ b.wb_item_id))
    (hok : ∀ x ∈ combined, cand_ok max_price exclude x) :
    ((combined.mergeSort (fun a b => decide (a.price ≤ b.price))).take
        limit).Pairwise (fun a b => a.price ≤ b.price) ∧
    ((combined.mergeSort (fun a b => decide (a.price ≤ b.price))).take
        limit).Pairwise (fun a b => a.wb_item_id ≠ b.wb_item_id) ∧
    (∀ x ∈ (combined.mergeSort (fun a b => decide (a.price ≤ b.price))).take limit,
      x.wb_item_id ≠ exclude) ∧
    ((combined.mergeSort (fun a b => decide (a.price ≤ b.price))).take
        limit).length ≤ limit ∧
    (∀ x ∈ (combined.mergeSort (fun a b => decide (a.price ≤ b.price))).take limit,
      x.price < max_price) := by
  have hperm := List.mergeSort_perm combined (fun a b => decide (a.price ≤ b.price))
  have hsub := List.take_sublist limit
    (combined.mergeSort (fun a b => decide (a.price ≤ b.price)))
  have hmem_of : ∀ x,
      x ∈ (combined.mergeSort (fun a b => decide (a.price ≤ b.price))).take limit →
      x ∈ combined := by
    intro x hx
    have hx1 := List.take_subset _ _ hx
    rwa [List.mem_mergeSort] at hx1
  refine ⟨?_, ?_, ?_, ?_, ?_⟩
  · have hsorted : ((combined.mergeSort (fun a b => decide (a.price ≤ b.price))).Pairwise
        (fun a b => decide (a.price ≤ b.price) = true)) :=
      List.sorted_mergeSort
        (fun a b c hab hbc => by
          simp only [decide_eq_true_eq] at hab hbc ⊢
          exact le_trans hab hbc)
        (fun a b => by
          simp only [Bool.or_eq_true, decide_eq_true_eq]
          exact le_total _ _)
        combined
    exact (List.Pairwise.sublist hsub hsorted).imp (fun hab => by simpa using hab)
  · exact List.Pairwise.sublist hsub
      (hdist.perm hperm.symm (fun hab => Ne.symm hab))
  · intro x hx
    exact (hok x (hmem_of x hx)).2
  · rw [List.length_take]
    exact min_le_left _ _
  · intro x hx
    exact (hok x (hmem_of x hx)).1

/-- C5: whenever the find-cheaper search returns a list (it can also raise —
see the C6 analysis — or diverge only by returning an empty list), that list
is sorted ascending by price, has pairwise-distinct product ids, never
contains the excluded reference id, has length at most `limit`, and every
item's (known) price is strictly below `max_price`. -/
theorem find_cheaper_output_spec (oracle : HttpOracle) (st : MenuCacheState)
    (base_title : String) (max_price : ℚ) (exclude_wb_item_id : Int)
    (base_entity base_brand : Option String) (base_subject_id : Option Int)
    (match_percent_threshold : Option Int) (limit : Nat)
    (out : List WbSimilarProduct)
    (h : search_similar_cheaper oracle st base_title max_price exclude_wb_item_id
      base_entity base_brand base_subject_id match_percent_threshold limit = .ok out) :
    out.Pairwise (fun a b => a.price ≤ b.price) ∧
    out.Pairwise (fun a b => a.wb_item_id ≠ b.wb_item_id) ∧
    (∀ x ∈ out, x.wb_item_id ≠ exclude_wb_item_id) ∧
    out.length ≤ limit ∧
    (∀ x ∈ out, x.price < max_price) := by
  unfold search_similar_cheaper search_similar_all_sources at h
  dsimp only at h
  split at h
  · simp only [Except.ok.injEq] at h
    subst h
    simp
  · split at h
    · simp at h
    · rename_i acc1 st1 heq1
      have hinv1 := collect_pass_inv heq1 (acc_inv_nil max_price exclude_wb_item_id)
      split at h
      · simp at h
      · rename_i acc2 st2 heq2
        have hinv2 : acc_inv max_price exclude_wb_item_id acc2 := by
          split at heq2
          · exact collect_pass_inv heq2 hinv1
          · simp only [Except.ok.injEq, Prod.mk.injEq] at heq2
            exact heq2.1 ▸ hinv1
        split at h
        · simp at h
        · rename_i acc3 st3 heq3
          have hinv3 : acc_inv max_price exclude_wb_item_id acc3 := by
            split at heq3
            · exact collect_pass_inv heq3 hinv2
            · simp only [Except.ok.injEq, Prod.mk.injEq] at heq3
              exact heq3.1 ▸ hinv2
          split at h
          · simp at h
          · rename_i acc4 st4 heq4
            have hinv4 : acc_inv max_price exclude_wb_item_id acc4 := by
              split at heq4
              · exact collect_pass_inv heq4 hinv3
              · simp only [Except.ok.injEq, Prod.mk.injEq] at heq4
                exact heq4.1 ▸ hinv3
            simp only [Except.ok.injEq] at h
            subst h
            exact final_output_props hinv4.1 hinv4.2.1

/-- Witness for `find_cheaper_output_spec`: the all-failing oracle returns
`ok []`, on which every clause holds. -/
theorem find_cheaper_output_spec_witness :
    (([] : List WbSimilarProduct).Pairwise (fun a b => a.price ≤ b.price) ∧
      ([] : List WbSimilarProduct).Pairwise (fun a b => a.wb_item_id ≠ b.wb_item_id) ∧
      (∀ x ∈ ([] : List WbSimilarProduct), x.wb_item_id ≠ (555 : Int)) ∧
      ([] : List WbSimilarProduct).length ≤ 5 ∧
      (∀ x ∈ ([] : List WbSimilarProduct), x.price < (1000 : ℚ))) :=
  find_cheaper_output_spec failingOracle ⟨none, false⟩ "apple iphone cable" 1000 555
    none none none none 5 [] rfl

end WbMonitor
